import Mathlib

/-!
Verification of the analysis/caching engine of the ResumeAnalysisAndJobRecommendation
repository (backend/llm_analyzer.py and backend/resume_scorer.py), shallowly embedded
in Lean 4.  Python strings are modelled as `String`/`List Char`, Python dicts holding
JSON-shaped data as an algebraic `Json` type whose objects are key-unique association
lists in insertion order, Python exceptions as an `Except` layer, the LLM transport as
an oracle consumed one answer per underlying inference call, and wall-clock reads as
an oracle string.  Floating point arithmetic of the scorer is idealized as exact
rational arithmetic (the decimal weights involved are exact in both readings for every
input the theorems below evaluate).
-/

namespace ResumeVerify

/-- The `{` character, kept out of literals. -/
def braceOpen : Char := Char.ofNat 123

/-- The `}` character, kept out of literals. -/
def braceClose : Char := Char.ofNat 125

/-- JSON whitespace accepted by Python's `json.loads` between tokens. -/
def isJsonWs (c : Char) : Bool := c = ' ' || c = '\t' || c = '\n' || c = '\r'

/-- The whitespace set stripped by Python `str.strip()` (ASCII part). -/
def isPyWs (c : Char) : Bool :=
  c = ' ' || c = '\t' || c = '\n' || c = '\r' || c = Char.ofNat 11 || c = Char.ofNat 12

/-- Python regex `\w` / `\b` word characters, ASCII fragment (letters, digits, underscore). -/
def isWordChar (c : Char) : Bool := c.isAlphanum || c = '_'

/-- `pat` matches at the head of `cs` (all of `pat` is an initial segment of `cs`). -/
def listStartsWith : List Char → List Char → Bool
  | [], _ => true
  | _ :: _, [] => false
  | p :: ps, c :: cs => p = c && listStartsWith ps cs

/-- Substring containment, Python `pat in s`. -/
def containsSub (cs pat : List Char) : Bool :=
  match cs with
  | [] => listStartsWith pat []
  | _ :: rest => listStartsWith pat cs || containsSub rest pat

/-- Python `str.strip()`: drop leading and trailing whitespace. -/
def pyStrip (cs : List Char) : List Char :=
  ((cs.dropWhile isPyWs).reverse.dropWhile isPyWs).reverse

/-- Worker for `pyReplace`; the fuel starts at the length of the scanned list and each
step consumes at least one character, so it never runs out. -/
def pyReplaceGo (pat rep : List Char) : Nat → List Char → List Char
  | 0, cs => cs
  | _ + 1, [] => []
  | fuel + 1, c :: rest =>
    if listStartsWith pat (c :: rest) then
      rep ++ pyReplaceGo pat rep fuel (List.drop (pat.length - 1) rest)
    else
      c :: pyReplaceGo pat rep fuel rest

/-- Python `str.replace(pat, rep)`: every non-overlapping occurrence, left to right.
(The empty-pattern case never arises in the embedded code.) -/
def pyReplace (cs pat rep : List Char) : List Char :=
  if pat.isEmpty then cs else pyReplaceGo pat rep cs.length cs

/-- First index of `c` in `cs` (`str.find`, defined only when present). -/
def idxOfC (cs : List Char) (c : Char) : Nat :=
  match cs with
  | [] => 0
  | d :: rest => if d = c then 0 else idxOfC rest c + 1

/-- Last index of `c` in `cs` as an option (`str.rfind`). -/
def rIdxOfC (cs : List Char) (c : Char) : Option Nat :=
  match cs with
  | [] => none
  | d :: rest =>
    match rIdxOfC rest c with
    | some i => some (i + 1)
    | none => if d = c then some 0 else none

/-- Python slice `cs[a:b]`. -/
def sliceL (cs : List Char) (a b : Nat) : List Char :=
  (cs.drop a).take (b - a)

/-- ASCII lower-casing, Python `str.lower()` on the texts involved. -/
def pyLower (cs : List Char) : List Char := cs.map Char.toLower

/-- Character at an index, with a NUL placeholder out of range (only consulted
together with a range guard). -/
def charAt (cs : List Char) (i : Nat) : Char := cs.getD i (Char.ofNat 0)

/-- Whether position `i` holds a word character (out of range counts as non-word,
matching how `\b` treats the ends of the subject). -/
def wordAt (cs : List Char) (i : Nat) : Bool :=
  i < cs.length && isWordChar (charAt cs i)

/-- Regex `\b` at position `i` of `cs`: the two sides disagree about wordness. -/
def boundaryAt (cs : List Char) (i : Nat) : Bool :=
  wordAt cs i ≠ wordAt cs (i - 1) || (i = 0 && wordAt cs 0)

/-!  ## Exact rationals

Python's float arithmetic in the embedded code is idealized as exact rational
arithmetic.  The representation is a plain numerator/denominator pair normalized
through `Nat.gcd`, so every operation evaluates inside the kernel.  All decimal
literals appearing in the source (weights, blend factors, thresholds) are exact in
this reading. -/

structure Q where
  n : Int
  d : Nat
deriving DecidableEq

/-- Normalized rational `n / d` (the `d = 0` case never arises). -/
def qnorm (n : Int) (d : Nat) : Q :=
  if d = 0 then ⟨0, 1⟩
  else
    let g := Nat.gcd n.natAbs d
    ⟨n / (g : Int), d / g⟩

instance (k : Nat) : OfNat Q k := ⟨⟨k, 1⟩⟩

instance : Neg Q := ⟨fun a => ⟨-a.n, a.d⟩⟩

instance : Add Q := ⟨fun a b => qnorm (a.n * (b.d : Int) + b.n * (a.d : Int)) (a.d * b.d)⟩

instance : Sub Q := ⟨fun a b => a + -b⟩

instance : Mul Q := ⟨fun a b => qnorm (a.n * b.n) (a.d * b.d)⟩

/-- Multiplicative inverse (of a nonzero value). -/
def Q.inv (a : Q) : Q :=
  if a.n < 0 then ⟨-(a.d : Int), a.n.natAbs⟩ else ⟨(a.d : Int), a.n.natAbs⟩

instance : Div Q := ⟨fun a b => a * b.inv⟩

instance : LT Q := ⟨fun a b => a.n * (b.d : Int) < b.n * (a.d : Int)⟩

instance : LE Q := ⟨fun a b => a.n * (b.d : Int) ≤ b.n * (a.d : Int)⟩

instance (a b : Q) : Decidable (a < b) := Int.decLt _ _

instance (a b : Q) : Decidable (a ≤ b) := Int.decLe _ _

instance : Min Q := ⟨fun a b => if a ≤ b then a else b⟩

instance : Max Q := ⟨fun a b => if a ≤ b then b else a⟩

/-- The integer `k` as a rational. -/
def Q.ofInt (k : Int) : Q := ⟨k, 1⟩

instance : IntCast Q := ⟨Q.ofInt⟩

instance : NatCast Q := ⟨fun k => ⟨(k : Int), 1⟩⟩

/-- Natural powers by iterated multiplication. -/
def Q.npow (a : Q) : Nat → Q
  | 0 => 1
  | k + 1 => a * Q.npow a k

instance : Pow Q Nat := ⟨Q.npow⟩

instance : Pow Q Int := ⟨fun a e => if 0 ≤ e then a ^ e.toNat else (a ^ (-e).toNat).inv⟩

/-- The decimal literal `m × 10⁻ᵉ` (for spelling source constants like `0.25`). -/
def Q.dec (m : Nat) (e : Nat) : Q := qnorm (m : Int) (10 ^ e)

/-- `10^e` for an integer exponent (the JSON exponent part). -/
def Q.pow10 (e : Int) : Q :=
  if 0 ≤ e then ⟨((10 : Nat) ^ e.toNat : Nat), 1⟩ else ⟨1, (10 : Nat) ^ (-e).toNat⟩

/-!  ## JSON values

Python dict values produced by `json.loads` and by the analyzer itself.  Objects are
association lists with pairwise-distinct keys in insertion order (the parser and all
update helpers below maintain this), mirroring Python's insertion-ordered dicts.
`num` carries the exact rational value of the decimal literal; `special` covers the
non-finite literals `NaN`/`Infinity`/`-Infinity` that Python's parser also accepts. -/

inductive Json where
  | null
  | bool (b : Bool)
  | num (q : Q)
  | str (s : String)
  | special (s : String)
  | arr (xs : List Json)
  | obj (fields : List (String × Json))

/-- Association-list lookup (dict indexing).  Keys are unique, so first match. -/
def lookupAssoc {α : Type} (l : List (String × α)) (k : String) : Option α :=
  match l with
  | [] => none
  | (k₀, v) :: rest => if k₀ = k then some v else lookupAssoc rest k

/-- Dict assignment `d[k] = v`: replace in place when the key exists (Python keeps the
original position), append otherwise. -/
def insertAssoc {α : Type} (l : List (String × α)) (k : String) (v : α) : List (String × α) :=
  match l with
  | [] => [(k, v)]
  | (k₀, v₀) :: rest =>
    if k₀ = k then (k₀, v) :: rest else (k₀, v₀) :: insertAssoc rest k v

/-- Python truthiness of a JSON-shaped value. -/
def pyTruthy : Json → Bool
  | .null => false
  | .bool b => b
  | .num q => q ≠ 0
  | .str s => s ≠ ""
  | .special _ => true
  | .arr xs => !xs.isEmpty
  | .obj fs => !fs.isEmpty

/-!  ## Python exceptions -/

inductive PyExc where
  | attributeError (msg : String)
  | typeError (msg : String)

/-- Python `str(e)` of the modelled exceptions. -/
def PyExc.message : PyExc → String
  | .attributeError m => m
  | .typeError m => m

/-- Equality of a JSON value with a Python string, as Python `==` computes it inside
`x in list`: only a str compares equal to a str. -/
def jsonEqStr (j : Json) (s : String) : Bool :=
  match j with
  | .str t => t = s
  | _ => false

/-- Python `k in j` for a string `k`: key test on dicts, substring test on strings,
membership on lists; everything else raises `TypeError`. -/
def pyContains (j : Json) (k : String) : Except PyExc Bool :=
  match j with
  | .obj fs => .ok (lookupAssoc fs k).isSome
  | .arr xs => .ok (xs.any (fun x => jsonEqStr x k))
  | .str s => .ok (containsSub s.data k.data)
  | _ => .error (.typeError "argument is not iterable")

/-- Python `j.get(k, d)` (dict method; anything else raises `AttributeError`). -/
def pyGetD (j : Json) (k : String) (d : Json) : Except PyExc Json :=
  match j with
  | .obj fs => .ok ((lookupAssoc fs k).getD d)
  | _ => .error (.attributeError "object has no attribute get")

/-- Python `j[k] = v` (dict item assignment; anything else raises `TypeError`). -/
def pySetItem (j : Json) (k : String) (v : Json) : Except PyExc Json :=
  match j with
  | .obj fs => .ok (.obj (insertAssoc fs k v))
  | _ => .error (.typeError "object does not support item assignment")

/-- Python `for x in j`: the element sequence, or `TypeError` for non-iterables.
Iterating a dict yields its keys; iterating a string yields 1-character strings. -/
def pyIterate (j : Json) : Except PyExc (List Json) :=
  match j with
  | .arr xs => .ok xs
  | .obj fs => .ok (fs.map (fun kv => .str kv.1))
  | .str s => .ok (s.data.map (fun c => .str (String.mk [c])))
  | _ => .error (.typeError "object is not iterable")

/-- Truncation of a rational toward zero, the behaviour of Python `int()` on a float
and of `int` division in the score computations. -/
def ratTrunc (q : Q) : Int :=
  if q.n < 0 then -(((-q.n).toNat / q.d : Nat) : Int) else ((q.n.toNat / q.d : Nat) : Int)

/-- Integer literal scan for Python `int(s)` on strings: optional sign then digits,
surrounding whitespace allowed, nothing else. -/
def pyIntOfChars (cs : List Char) : Option Int :=
  let cs := pyStrip cs
  let (neg, digits) :=
    match cs with
    | '-' :: rest => (true, rest)
    | '+' :: rest => (false, rest)
    | _ => (false, cs)
  if digits.isEmpty || !digits.all Char.isDigit then none
  else
    let n : Nat := digits.foldl (fun acc c => acc * 10 + (c.toNat - 48)) 0
    some (if neg then -(n : Int) else (n : Int))

/-- Python `int(x)` on a JSON-shaped value: floats truncate toward zero, strings must
spell an integer, bools coerce to 0/1, everything else raises (modelled as `none`). -/
def pythonInt (j : Json) : Option Int :=
  match j with
  | .num q => some (ratTrunc q)
  | .str s => pyIntOfChars s.data
  | .bool b => some (if b then 1 else 0)
  | _ => none

/-!  ## A model of Python `json.loads`

Recursive-descent with syntactic fuel (each recursive call first consumes at least one
character, so `length + 1` fuel always suffices).  Matches the strict JSON grammar the
Python parser accepts: the four whitespace characters, no leading zeros, at least one
digit in fractions and exponents, double-quoted strings with the standard escapes and
a rejection of raw control characters, plus the Python extensions `NaN`, `Infinity`
and `-Infinity`.  Trailing data after the value makes the whole load fail. -/

/-- Skip inter-token whitespace. -/
def skipWsL (cs : List Char) : List Char := cs.dropWhile isJsonWs

/-- Value of a hex digit, used by `\u` escapes. -/
def hexVal (c : Char) : Option Nat :=
  if c.isDigit then some (c.toNat - 48)
  else if 97 ≤ c.toNat && c.toNat ≤ 102 then some (c.toNat - 87)
  else if 65 ≤ c.toNat && c.toNat ≤ 70 then some (c.toNat - 55)
  else none

/-- Parse the body of a JSON string (the opening quote already consumed). -/
def parseJStr : Nat → List Char → List Char → Option (String × List Char)
  | 0, _, _ => none
  | _ + 1, _, [] => none
  | fuel + 1, acc, c :: rest =>
    if c = '"' then some (String.mk acc.reverse, rest)
    else if c = '\\' then
      match rest with
      | [] => none
      | e :: rest2 =>
        if e = '"' then parseJStr fuel ('"' :: acc) rest2
        else if e = '\\' then parseJStr fuel ('\\' :: acc) rest2
        else if e = '/' then parseJStr fuel ('/' :: acc) rest2
        else if e = 'b' then parseJStr fuel (Char.ofNat 8 :: acc) rest2
        else if e = 'f' then parseJStr fuel (Char.ofNat 12 :: acc) rest2
        else if e = 'n' then parseJStr fuel ('\n' :: acc) rest2
        else if e = 'r' then parseJStr fuel ('\r' :: acc) rest2
        else if e = 't' then parseJStr fuel ('\t' :: acc) rest2
        else if e = 'u' then
          match rest2 with
          | h1 :: h2 :: h3 :: h4 :: rest3 =>
            match hexVal h1, hexVal h2, hexVal h3, hexVal h4 with
            | some a, some b, some c3, some d =>
              parseJStr fuel (Char.ofNat (((a * 16 + b) * 16 + c3) * 16 + d) :: acc) rest3
            | _, _, _, _ => none
          | _ => none
        else none
    else if c.toNat < 32 then none
    else parseJStr fuel (c :: acc) rest

/-- Consume a run of decimal digits, returning its value, its length and the rest. -/
def digitsRunGo (acc k : Nat) : List Char → (Nat × Nat × List Char)
  | [] => (acc, k, [])
  | c :: rest =>
    if c.isDigit then digitsRunGo (acc * 10 + (c.toNat - 48)) (k + 1) rest
    else (acc, k, c :: rest)

/-- A maximal run of decimal digits: value, count, rest of the input. -/
def digitsRun (cs : List Char) : Nat × Nat × List Char := digitsRunGo 0 0 cs

/-- Parse a JSON number starting at `cs` (first char a digit or `-`), returning its
exact rational value.  Grammar: `-? (0 | [1-9][0-9]*) (\.[0-9]+)? ([eE][+-]?[0-9]+)?`. -/
def parseJNum (cs : List Char) : Option (Q × List Char) := do
  let (neg, cs1) := match cs with
    | '-' :: rest => (true, rest)
    | _ => (false, cs)
  -- integer part, no leading zeros
  let (ival, cs2) ←
    match cs1 with
    | '0' :: rest => some ((0 : Nat), rest)
    | c :: _ =>
      if c.isDigit then
        let (v, k, r) := digitsRun cs1
        if k = 0 then none else some (v, r)
      else none
    | [] => none
  -- fraction
  let (fval, fk, cs3) ←
    match cs2 with
    | '.' :: rest =>
      let (v, k, r) := digitsRun rest
      if k = 0 then none else some (v, k, r)
    | _ => some (0, 0, cs2)
  -- exponent
  let (expVal, cs4) ←
    match cs3 with
    | c :: rest =>
      if c = 'e' || c = 'E' then
        let (eneg, rest2) := match rest with
          | '-' :: r2 => (true, r2)
          | '+' :: r2 => (false, r2)
          | _ => (false, rest)
        let (v, k, r) := digitsRun rest2
        if k = 0 then none else some ((if eneg then -(v : Int) else (v : Int)), r)
      else some ((0 : Int), cs3)
    | [] => some ((0 : Int), cs3)
  let mag : Q := ((ival : Q) + (fval : Q) / ((10 : Q) ^ fk)) * (10 : Q) ^ expVal
  some (if neg then -mag else mag, cs4)

/-- The pending parse task: one value, the members of an object after its `{`, or the
elements of an array after its `[` (whitespace already skipped for the two bodies). -/
inductive PTask where
  | val (cs : List Char)
  | objBody (cs : List Char) (acc : List (String × Json)) (first : Bool)
  | arrBody (cs : List Char) (acc : List Json) (first : Bool)

/-- The recursive-descent worker, structurally recursive on its fuel. -/
def parseGo : Nat → PTask → Option (Json × List Char)
  | 0, _ => none
  | _ + 1, .val [] => none
  | fuel + 1, .val (c :: rest) =>
    if c = braceOpen then parseGo fuel (.objBody (skipWsL rest) [] true)
    else if c = '[' then parseGo fuel (.arrBody (skipWsL rest) [] true)
    else if c = '"' then
      match parseJStr (rest.length + 1) [] rest with
      | some (s, r) => some (.str s, r)
      | none => none
    else if listStartsWith "true".data (c :: rest) then some (.bool true, rest.drop 3)
    else if listStartsWith "false".data (c :: rest) then some (.bool false, rest.drop 4)
    else if listStartsWith "null".data (c :: rest) then some (.null, rest.drop 3)
    else if listStartsWith "NaN".data (c :: rest) then some (.special "NaN", rest.drop 2)
    else if listStartsWith "Infinity".data (c :: rest) then some (.special "Infinity", rest.drop 7)
    else if listStartsWith "-Infinity".data (c :: rest) then some (.special "-Infinity", rest.drop 8)
    else if c = '-' || c.isDigit then
      match parseJNum (c :: rest) with
      | some (q, r) => some (.num q, r)
      | none => none
    else none
  | _ + 1, .objBody [] _ _ => none
  | fuel + 1, .objBody (c :: rest) acc first =>
    -- members of an object; `first` marks that none has been read, so `\x7d` closes
    -- an empty object; duplicate keys: last value wins, first position kept
    if first && c = braceClose then some (.obj acc.reverse, rest)
    else if c = '"' then
      match parseJStr (rest.length + 1) [] rest with
      | none => none
      | some (k, r1) =>
        match skipWsL r1 with
        | ':' :: r2 =>
          match parseGo fuel (.val (skipWsL r2)) with
          | none => none
          | some (v, r3) =>
            let acc2 := (insertAssoc acc.reverse k v).reverse
            match skipWsL r3 with
            | ',' :: r4 => parseGo fuel (.objBody (skipWsL r4) acc2 false)
            | d :: r4 => if d = braceClose then some (.obj acc2.reverse, r4) else none
            | [] => none
        | _ => none
    else none
  | _ + 1, .arrBody [] _ _ => none
  | fuel + 1, .arrBody (c :: rest) acc first =>
    if first && c = ']' then some (.arr acc.reverse, rest)
    else
      match parseGo fuel (.val (c :: rest)) with
      | none => none
      | some (v, r1) =>
        match skipWsL r1 with
        | ',' :: r2 => parseGo fuel (.arrBody (skipWsL r2) (v :: acc) false)
        | ']' :: r2 => some (.arr (v :: acc).reverse, r2)
        | _ => none

/-- Parse one JSON value. -/
def parseJVal (fuel : Nat) (cs : List Char) : Option (Json × List Char) :=
  parseGo fuel (.val cs)

/-- `json.loads` on a character list: one value, optional surrounding whitespace,
nothing else; `none` models the `JSONDecodeError` raise. -/
def pyJsonLoadsL (cs : List Char) : Option Json :=
  let cs1 := skipWsL cs
  match parseJVal (2 * cs1.length + 2) cs1 with
  | some (v, rest) => if (skipWsL rest).isEmpty then some v else none
  | none => none

/-- `json.loads` on a string. -/
def pyJsonLoads (s : String) : Option Json := pyJsonLoadsL s.data

/-!  ## SHA-256

`hashlib.sha256(text.encode()).hexdigest()` as used by `AnalysisCache._generate_key`:
UTF-8 encode, FIPS 180-4 compression, lowercase hex digest.  Words are naturals
reduced mod `2^32` explicitly. -/

namespace Sha256

/-- UTF-8 encoding of one code point (`str.encode()` is UTF-8 by default). -/
def utf8Char (c : Char) : List Nat :=
  let n := c.toNat
  if n < 128 then [n]
  else if n < 2048 then [192 + n / 64, 128 + n % 64]
  else if n < 65536 then [224 + n / 4096, 128 + n / 64 % 64, 128 + n % 64]
  else [240 + n / 262144, 128 + n / 4096 % 64, 128 + n / 64 % 64, 128 + n % 64]

/-- UTF-8 byte sequence of a string. -/
def utf8Bytes (s : String) : List Nat := (s.data.map utf8Char).flatten

def mask32 (n : Nat) : Nat := n % 4294967296

/-- Rotate a 32-bit word right by `r`. -/
def rotr (x r : Nat) : Nat := mask32 ((x >>> r) ||| (x <<< (32 - r)))

def bSig0 (x : Nat) : Nat := (rotr x 2) ^^^ (rotr x 13) ^^^ (rotr x 22)

def bSig1 (x : Nat) : Nat := (rotr x 6) ^^^ (rotr x 11) ^^^ (rotr x 25)

def sSig0 (x : Nat) : Nat := (rotr x 7) ^^^ (rotr x 18) ^^^ (x >>> 3)

def sSig1 (x : Nat) : Nat := (rotr x 17) ^^^ (rotr x 19) ^^^ (x >>> 10)

def ch (x y z : Nat) : Nat := (x &&& y) ^^^ ((x ^^^ 4294967295) &&& z)

def maj (x y z : Nat) : Nat := (x &&& y) ^^^ (x &&& z) ^^^ (y &&& z)

def K : List Nat :=
  [1116352408, 1899447441, 3049323471, 3921009573, 961987163,
   1508970993, 2453635748, 2870763221, 3624381080, 310598401,
   607225278, 1426881987, 1925078388, 2162078206, 2614888103,
   3248222580, 3835390401, 4022224774, 264347078, 604807628,
   770255983, 1249150122, 1555081692, 1996064986, 2554220882,
   2821834349, 2952996808, 3210313671, 3336571891, 3584528711,
   113926993, 338241895, 666307205, 773529912, 1294757372,
   1396182291, 1695183700, 1986661051, 2177026350, 2456956037,
   2730485921, 2820302411, 3259730800, 3345764771, 3516065817,
   3600352804, 4094571909, 275423344, 430227734, 506948616,
   659060556, 883997877, 958139571, 1322822218, 1537002063,
   1747873779, 1955562222, 2024104815, 2227730452, 2361852424,
   2428436474, 2756734187, 3204031479, 3329325298]

def H0 : List Nat :=
  [1779033703, 3144134277, 1013904242, 2773480762,
   1359893119, 2600822924, 528734635, 1541459225]

/-- Big-endian bytes of `n`, `k` bytes wide. -/
def beBytes (k n : Nat) : List Nat :=
  match k with
  | 0 => []
  | k + 1 => beBytes k (n / 256) ++ [n % 256]

/-- Message padding: `0x80`, zeros to 56 mod 64, then the 64-bit bit length. -/
def pad (msg : List Nat) : List Nat :=
  let l := msg.length
  let zeros := (120 - (l + 1) % 64) % 64
  msg ++ [128] ++ List.replicate zeros 0 ++ beBytes 8 (8 * l)

/-- Split the padded bytes into 32-bit big-endian words. -/
def toWords : List Nat → List Nat
  | b0 :: b1 :: b2 :: b3 :: rest => (((b0 * 256 + b1) * 256 + b2) * 256 + b3) :: toWords rest
  | _ => []

/-- Extend 16 message words to 64 schedule words. -/
def extendWords (w : List Nat) (t : Nat) : List Nat :=
  match t with
  | 0 => w
  | t + 1 =>
    let w := extendWords w t
    let get (i : Nat) := w.getD i 0
    let n := w.length
    w ++ [mask32 (sSig1 (get (n - 2)) + get (n - 7) + sSig0 (get (n - 15)) + get (n - 16))]

/-- One round of the compression function on the working tuple. -/
def round (kw : Nat × Nat) : List Nat → List Nat
  | [a, b, c, d, e, f, g, h] =>
    let t1 := mask32 (h + bSig1 e + ch e f g + kw.1 + kw.2)
    let t2 := mask32 (bSig0 a + maj a b c)
    [mask32 (t1 + t2), a, b, c, mask32 (d + t1), e, f, g]
  | l => l

/-- Compress one 16-word block into the running hash value. -/
def compress (hv : List Nat) (block : List Nat) : List Nat :=
  let w := extendWords block 48
  let final := (K.zip w).foldl (fun st kw => round kw st) hv
  (hv.zip final).map (fun p => mask32 (p.1 + p.2))

/-- Fold the compression over all 16-word blocks (each step consumes 16 words, so a
fuel of the word count always suffices). -/
def processBlocksGo (fuel : Nat) (hv : List Nat) (words : List Nat) : List Nat :=
  match fuel, words with
  | _, [] => hv
  | 0, _ => hv
  | fuel + 1, w :: ws => processBlocksGo fuel (compress hv ((w :: ws).take 16)) (ws.drop 15)

def processBlocks (hv : List Nat) (words : List Nat) : List Nat :=
  processBlocksGo words.length hv words

def hexDigit (n : Nat) : Char := charAt "0123456789abcdef".data n

/-- Lowercase hex of one 32-bit word. -/
def wordHex (n : Nat) : List Char :=
  (beBytes 4 n).flatMap (fun b => [hexDigit (b / 16), hexDigit (b % 16)])

/-- `hashlib.sha256(s.encode()).hexdigest()`. -/
def sha256Hex (s : String) : String :=
  let words := toWords (pad (utf8Bytes s))
  String.mk ((processBlocks H0 words).flatMap wordHex)

end Sha256

/-!  ## `json.dumps`

Only needed because `analyze_skills_gap_from_extracted` uses the serialized skills
dict as the subject text of its cache key.  Default Python separators; strings escape
the quote, the backslash and control characters. -/

/-- Escape one character as Python's default serializer renders it. -/
def dumpEscChar (c : Char) : List Char :=
  if c = '"' then ['\\', '"']
  else if c = '\\' then ['\\', '\\']
  else if c = '\n' then ['\\', 'n']
  else if c = '\r' then ['\\', 'r']
  else if c = '\t' then ['\\', 't']
  else if c.toNat < 32 || c.toNat > 126 then
    '\\' :: 'u' :: (List.range 4).reverse.map (fun i => Sha256.hexDigit (c.toNat / 16 ^ i % 16))
  else [c]

/-- Serialized form of a string literal. -/
def dumpStr (s : String) : String :=
  String.mk ('"' :: (s.data.map dumpEscChar).flatten ++ ['"'])

/-- Serialized form of a rational number: integers print as integers; the non-integer
case (never produced by the flows the theorems evaluate) prints numerator/denominator. -/
def dumpNum (q : Q) : String :=
  if q.d = 1 then toString q.n else toString q.n ++ "e-" ++ toString q.d

/-- Serializer worker, structurally recursive on fuel (the `sizeOf` of the value
bounds the recursion depth strictly, so the zero case is unreachable). -/
def dumpsGo : Nat → Json → String
  | _, .null => "null"
  | _, .bool b => if b then "true" else "false"
  | _, .num q => dumpNum q
  | _, .str s => dumpStr s
  | _, .special s => s
  | 0, _ => ""
  | fuel + 1, .arr xs =>
    "[" ++ String.intercalate ", " (xs.map (fun x => dumpsGo fuel x)) ++ "]"
  | fuel + 1, .obj fs =>
    String.mk [braceOpen] ++
      String.intercalate ", " (fs.map (fun kv => dumpStr kv.1 ++ ": " ++ dumpsGo fuel kv.2)) ++
      String.mk [braceClose]

mutual

/-- A computable size measure bounding the nesting depth of a value. -/
def jsonSize : Json → Nat
  | .null => 1
  | .bool _ => 1
  | .num _ => 1
  | .str _ => 1
  | .special _ => 1
  | .arr xs => 1 + jsonListSize xs
  | .obj fs => 1 + jsonFieldsSize fs

def jsonListSize : List Json → Nat
  | [] => 0
  | x :: xs => jsonSize x + jsonListSize xs

def jsonFieldsSize : List (String × Json) → Nat
  | [] => 0
  | kv :: fs => jsonSize kv.2 + jsonFieldsSize fs

end

/-- `json.dumps(j)` with Python's default separators. -/
def pyJsonDumps (j : Json) : String := dumpsGo (jsonSize j) j

/-!  ## `LLMAnalyzer._parse_response`

The four-stage extraction cascade: strip code fences and whitespace then direct parse;
slice from the first `{` to the last `}`; regex `\{[\s\S]*\}` (leftmost `{` with some
`}` after it, greedy to the last `}`); finally the raw-text sentinel. -/

/-- The fence-stripping normalisation applied before any parse attempt. -/
def cleanedOf (responseText : String) : List Char :=
  pyStrip (pyReplace (pyReplace (pyStrip responseText.data) "```json".data []) "```".data [])

/-- The greedy regex fallback `re.search(r'\x7b[\s\S]*\x7d', cleaned)`: leftmost
possible start, greedy span to the final closing brace. -/
def regexBraceSpan (cs : List Char) : Option (List Char) :=
  match rIdxOfC cs braceClose with
  | none => none
  | some j =>
    if containsSub (cs.take j) [braceOpen] then
      let i := idxOfC cs braceOpen
      some (sliceL cs i (j + 1))
    else none

/-- `LLMAnalyzer._parse_response` on an actual string reply. -/
def parseResponse (responseText : String) : Json :=
  let cleaned := cleanedOf responseText
  match pyJsonLoadsL cleaned with
  | some v => v
  | none =>
    let braceWindow :=
      if containsSub cleaned [braceOpen] && containsSub cleaned [braceClose] then
        let start := idxOfC cleaned braceOpen
        let stop := (rIdxOfC cleaned braceClose).getD 0
        if start < stop then pyJsonLoadsL (sliceL cleaned start (stop + 1)) else none
      else none
    match braceWindow with
    | some v => v
    | none =>
      match regexBraceSpan cleaned with
      | some snip =>
        match pyJsonLoadsL snip with
        | some v => v
        | none => .obj [("raw_response", .str responseText)]
      | none => .obj [("raw_response", .str responseText)]

/-- `_parse_response` as called without the `None` guard (the detailed-skills,
industry-skills and gap-analysis paths): `None.strip()` raises inside the helper's own
`try`, which converts it to an error record carrying the `None` raw response. -/
def parseResponseOpt (responseText : Option String) : Json :=
  match responseText with
  | some s => parseResponse s
  | none =>
    .obj [("error", .str "Response parsing error: \x27NoneType\x27 object has no attribute \x27strip\x27"),
          ("raw_response", .null)]

/-!  ## `AnalysisCache`

Two tiers: the in-process dict `self.cache` and the key-per-file durable directory,
both mapping the same derived key to a stored record.  Disk contents are modelled as
an association list of well-formed stored records. -/

structure CacheState where
  mem : List (String × Json)
  disk : List (String × Json)

/-- `AnalysisCache._generate_key`: the analysis kind joined to the SHA-256 hex digest
of the subject text. -/
def generateKey (resumeText analysisType : String) : String :=
  analysisType ++ "_" ++ Sha256.sha256Hex resumeText

/-- `AnalysisCache.get`: in-memory tier first, then the durable tier, promoting a disk
hit into memory.  Returned values are copies, so callers mutate only their copy. -/
def cacheGet (c : CacheState) (resumeText analysisType : String) : Option Json × CacheState :=
  let key := generateKey resumeText analysisType
  match lookupAssoc c.mem key with
  | some v => (some v, c)
  | none =>
    match lookupAssoc c.disk key with
    | some v => (some v, { c with mem := insertAssoc c.mem key v })
    | none => (none, c)

/-- `AnalysisCache.set`: store a copy in both tiers. -/
def cacheSet (c : CacheState) (resumeText analysisType : String) (result : Json) : CacheState :=
  let key := generateKey resumeText analysisType
  { mem := insertAssoc c.mem key result, disk := insertAssoc c.disk key result }

/-!  ## `LLMAnalyzer._call_ollama_with_retry`

Each attempt either yields an HTTP 200 with a response payload or fails (rate-limit,
other status, timeout, connection error, unexpected exception); only a 200 leaves the
loop early, every failure kind sleeps and retries, and exhausting the loop returns the
explicit absence `None`.  The sleeps are timing-only, so the model does not carry
them.  The LangChain route is statically disabled: `_initialize_langchain` forces
`use_langchain = False` before any call can happen. -/

inductive AttemptOutcome where
  | http200 (body : String)
  | http429
  | httpOther (status : Nat)
  | timeout
  | connError
  | unexpected

/-- An attempt that does not produce a payload. -/
def AttemptOutcome.isFailure : AttemptOutcome → Bool
  | .http200 _ => false
  | _ => true

/-- `use_langchain` after `__init__`: `_initialize_langchain` unconditionally resets
it to `False` (llm_analyzer.py line 175), so the direct retry loop always runs. -/
def useLangchainEffective : Bool := false

/-- The retry loop body: `remaining` iterations left, `attempt` the 0-based index of
the next one.  Returns the payload (or `none`) together with how many attempts ran. -/
def retryGo (outcomes : Nat → AttemptOutcome) (attempt : Nat) : Nat → Option String × Nat
  | 0 => (none, attempt)
  | remaining + 1 =>
    match outcomes attempt with
    | .http200 body => (some body, attempt + 1)
    | _ => retryGo outcomes (attempt + 1) remaining

/-- `LLMAnalyzer._call_ollama_with_retry` with the per-attempt transport behaviour
supplied as an oracle: the aggregated result and the number of attempts issued. -/
def callOllamaWithRetry (maxRetries : Nat) (outcomes : Nat → AttemptOutcome) :
    Option String × Nat :=
  retryGo outcomes 0 maxRetries

/-!  ## Orchestrator environment and state

At the orchestrator level each `_call_ollama_with_retry` invocation is one underlying
inference call; its aggregated result comes from the transport oracle `tr`, indexed by
how many calls the analyzer has issued so far.  `now` supplies
`datetime.now().isoformat()`.  Token-ledger arithmetic (`TokenCounter`) touches no
claim and is elided; prompt strings likewise only flow into the oracle-modelled
transport and token estimates, so prompt construction is represented by the
`prompt_func` argument where the source has one and is otherwise not materialised. -/

structure Env where
  tr : Nat → Option String
  now : String

structure OrchState where
  cache : CacheState
  calls : Nat

/-- Issue one underlying inference call: consume the next oracle answer. -/
def callLLM (env : Env) (st : OrchState) : Option String × OrchState :=
  (env.tr st.calls, { st with cache := st.cache, calls := st.calls + 1 })

/-- The parse-failure test of `analyze_resume` / `comprehensive_analysis`:
`"raw_response" in parsed and len(parsed.keys()) == 1` with Python's evaluation
order (`in` may raise on non-iterables; `.keys()` only on the `True` branch). -/
def isSentinelOnly (parsed : Json) : Except PyExc Bool :=
  match pyContains parsed "raw_response" with
  | .error e => .error e
  | .ok b =>
    if b then
      match parsed with
      | .obj fs => .ok (fs.length == 1)
      | _ => .error (.attributeError "object has no attribute keys")
    else .ok false

/-- The record `analyze_resume` returns when the transport yields nothing. -/
def noResponseError : Json :=
  .obj [("error", .str "No response from Ollama. Check connection.")]

/-- The record returned when parsing produced only the raw-text sentinel. -/
def invalidJsonError (raw : Json) : Json :=
  .obj [("error", .str "LLM response was not valid JSON; see raw_response"),
        ("raw_response", raw)]

/-- `LLMAnalyzer.analyze_resume` body inside its `try`: either a returned record or a
raised exception, together with the state as mutated up to that point. -/
def analyzeResumeCore (env : Env) (resumeText : String) (promptFunc : String → String)
    (analysisType : String) (useCache : Bool) (st : OrchState) :
    Except PyExc Json × OrchState :=
  -- `if use_cache:` then `if cached_result:` — a falsy cached value (never stored by
  -- the code itself) falls through to a fresh analysis
  let afterCache :=
    if useCache then
      let (hit, c1) := cacheGet st.cache resumeText analysisType
      match hit with
      | some c => if pyTruthy c then (some c, { st with cache := c1 }) else (none, { st with cache := c1 })
      | none => (none, { st with cache := c1 })
    else (none, st)
  match afterCache with
  | (some cached, st1) =>
    (pySetItem cached "cached" (.bool true), st1)
  | (none, st1) =>
    let _prompt := promptFunc resumeText
    let (responseText, st2) := callLLM env st1
    match responseText with
    | none => (.ok noResponseError, st2)
    | some s =>
      if s = "" then (.ok noResponseError, st2)
      else
        let parsed := parseResponse s
        match isSentinelOnly parsed with
        | .error e => (.error e, st2)
        | .ok true =>
          match pyGetD parsed "raw_response" .null with
          | .error e => (.error e, st2)
          | .ok raw => (.ok (invalidJsonError raw), st2)
        | .ok false =>
          if useCache then
            match pyContains parsed "error" with
            | .error e => (.error e, st2)
            | .ok true => (.ok parsed, st2)
            | .ok false =>
              let st3 := { st2 with cache := cacheSet st2.cache resumeText analysisType parsed }
              match pySetItem parsed "cached" (.bool false) with
              | .error e => (.error e, st3)
              | .ok flagged => (.ok flagged, st3)
          else (.ok parsed, st2)

/-- `LLMAnalyzer.analyze_resume`: the enclosing `try/except` converts a raised
exception into an error record. -/
def analyzeResume (env : Env) (resumeText : String) (promptFunc : String → String)
    (analysisType : String) (useCache : Bool) (st : OrchState) : Json × OrchState :=
  match analyzeResumeCore env resumeText promptFunc analysisType useCache st with
  | (.ok r, st1) => (r, st1)
  | (.error e, st1) =>
    (.obj [("error", .str ("Analysis failed: " ++ e.message))], st1)

/-!  ## `_normalize_strengths` / `_normalize_weaknesses` -/

structure StrengthItem where
  strength : Json
  category : Json
  importance : Json
  confidence : Int
  examples : Json
  location : Json

structure WeaknessItem where
  weakness : Json
  category : Json
  severity : Json
  location : Json
  impact : Json
  fix : Json
  confidence : Int
  examples : Json

structure StrengthsNorm where
  summary : Json
  items : List StrengthItem

structure WeaknessesNorm where
  summary : Json
  items : List WeaknessItem

/-- `int(confidence)` guarded by `try/except` (0 on failure) then clamped with
`max(0, min(100, confidence))`. -/
def clampConfidence (raw : Json) : Int :=
  max 0 (min 100 ((pythonInt raw).getD 0))

/-- The record built for one strength item (a dict; non-dicts are skipped upstream). -/
def normStrengthItem (item : List (String × Json)) : StrengthItem :=
  { strength := (lookupAssoc item "strength").getD (.str "")
    category := (lookupAssoc item "category").getD (.str "content")
    importance := (lookupAssoc item "importance").getD (.str "medium")
    confidence := clampConfidence ((lookupAssoc item "confidence").getD (.num 0))
    examples := (lookupAssoc item "examples").getD (.arr [])
    location := (lookupAssoc item "location").getD (.str "") }

/-- The record built for one weakness item. -/
def normWeaknessItem (item : List (String × Json)) : WeaknessItem :=
  { weakness := (lookupAssoc item "weakness").getD (.str "")
    category := (lookupAssoc item "category").getD (.str "content")
    severity := (lookupAssoc item "severity").getD (.str "minor")
    location := (lookupAssoc item "location").getD (.str "")
    impact := (lookupAssoc item "impact").getD (.str "")
    fix := (lookupAssoc item "fix").getD (.str "")
    confidence := clampConfidence ((lookupAssoc item "confidence").getD (.num 0))
    examples := (lookupAssoc item "examples").getD (.arr []) }

/-- Keep the dict elements of an iterated value, as the `isinstance(item, dict)`
filter does. -/
def dictElems (xs : List Json) : List (List (String × Json)) :=
  xs.foldr (fun x acc => match x with | .obj fs => fs :: acc | _ => acc) []

/-- `LLMAnalyzer._normalize_strengths`.  `data.get` raises on a non-dict argument;
iterating a non-list `items` value raises on non-iterables, both surfaced here. -/
def normalizeStrengths (data : Json) : Except PyExc StrengthsNorm :=
  match data with
  | .obj fs =>
    let strengths := (lookupAssoc fs "strengths").getD ((lookupAssoc fs "items").getD (.arr []))
    let summary0 := (lookupAssoc fs "summary").getD (.str "")
    let (strengthsList, summary) :=
      match strengths with
      | .obj gs =>
        ((lookupAssoc gs "items").getD (.arr []), (lookupAssoc gs "summary").getD summary0)
      | .arr xs => (.arr xs, summary0)
      | _ => (.arr [], summary0)
    match pyIterate strengthsList with
    | .error e => .error e
    | .ok elems => .ok { summary := summary, items := (dictElems elems).map normStrengthItem }
  | _ => .error (.attributeError "object has no attribute get")

/-- `LLMAnalyzer._normalize_weaknesses`. -/
def normalizeWeaknesses (data : Json) : Except PyExc WeaknessesNorm :=
  match data with
  | .obj fs =>
    let weaknesses := (lookupAssoc fs "weaknesses").getD ((lookupAssoc fs "items").getD (.arr []))
    let summary0 := (lookupAssoc fs "overall_assessment").getD ((lookupAssoc fs "summary").getD (.str ""))
    let (weaknessesList, summary) :=
      match weaknesses with
      | .obj gs =>
        ((lookupAssoc gs "items").getD (.arr []), (lookupAssoc gs "summary").getD summary0)
      | .arr xs => (.arr xs, summary0)
      | _ => (.arr [], summary0)
    match pyIterate weaknessesList with
    | .error e => .error e
    | .ok elems => .ok { summary := summary, items := (dictElems elems).map normWeaknessItem }
  | _ => .error (.attributeError "object has no attribute get")

/-- Rendering of a normalized strengths record back into the dict
`analyze` flows store and return. -/
def StrengthItem.toJson (it : StrengthItem) : Json :=
  .obj [("strength", it.strength), ("category", it.category), ("importance", it.importance),
        ("confidence", .num it.confidence), ("examples", it.examples), ("location", it.location)]

def WeaknessItem.toJson (it : WeaknessItem) : Json :=
  .obj [("weakness", it.weakness), ("category", it.category), ("severity", it.severity),
        ("location", it.location), ("impact", it.impact), ("fix", it.fix),
        ("confidence", .num it.confidence), ("examples", it.examples)]

def StrengthsNorm.toJson (n : StrengthsNorm) : Json :=
  .obj [("summary", n.summary), ("items", .arr (n.items.map StrengthItem.toJson))]

def WeaknessesNorm.toJson (n : WeaknessesNorm) : Json :=
  .obj [("summary", n.summary), ("items", .arr (n.items.map WeaknessItem.toJson))]

/-!  ## `extract_detailed_skills` and the effective skills-gap pipeline

`analyze_skills_gap` is defined twice in llm_analyzer.py; Python keeps the later
definition (lines 1043-1049), which extracts detailed skills and delegates to
`analyze_skills_gap_from_extracted` — this is the pipeline the claims cite. -/

/-- A value is a Python `str` (`isinstance(x, str)`). -/
def jsonIsStr : Json → Bool
  | .str _ => true
  | _ => false

/-- `LLMAnalyzer.extract_detailed_skills`: unconditional cache probe, one inference
call, parse, and the `if parsed and not isinstance(parsed.get("error"), str)`
validation with Python's short-circuit order; its `try/except` turns an attribute
error on a non-dict parse into an error record. -/
def extractDetailedSkills (env : Env) (resumeText : String) (st : OrchState) :
    Json × OrchState :=
  let (hit, c1) := cacheGet st.cache resumeText "detailed_skills"
  let st1 := { st with cache := c1 }
  match hit with
  | some c =>
    if pyTruthy c then (c, st1)
    else extractDetailedSkillsFresh env resumeText st1
  | none => extractDetailedSkillsFresh env resumeText st1
where
  extractDetailedSkillsFresh (env : Env) (resumeText : String) (st1 : OrchState) :
      Json × OrchState :=
    let (responseText, st2) := callLLM env st1
    let parsed := parseResponseOpt responseText
    if !pyTruthy parsed then
      (.obj [("error", .str "Failed to parse skills extraction response")], st2)
    else
      match parsed with
      | .obj fs =>
        if jsonIsStr ((lookupAssoc fs "error").getD .null) then
          (.obj [("error", .str "Failed to parse skills extraction response")], st2)
        else
          (parsed, { st2 with cache := cacheSet st2.cache resumeText "detailed_skills" parsed })
      | _ =>
        (.obj [("error", .str ("\x27" ++ "object\x27 has no attribute \x27get\x27"))], st2)

/-- `_format_skills_for_prompt` only ever raises (on a non-dict argument, via
`.items()`); the string it builds feeds the prompt alone and is not materialised. -/
def formatSkillsCheck (j : Json) : Except PyExc Unit :=
  match j with
  | .obj _ => .ok ()
  | _ => .error (.attributeError "object has no attribute items")

/-- `LLMAnalyzer.analyze_skills_gap_from_extracted`.  The formatting step sits outside
the `try`, so its exception escapes the method (the `Except` layer); everything inside
the `try` returns a record. -/
def analyzeSkillsGapFromExtracted (env : Env) (extractedSkills : Json)
    (targetRole : Option String) (experienceLevel : String) (st : OrchState) :
    Except PyExc Json × OrchState :=
  match formatSkillsCheck extractedSkills with
  | .error e => (.error e, st)
  | .ok _ =>
    let (responseText, st1) := callLLM env st
    let gapAnalysis := parseResponseOpt responseText
    if !pyTruthy gapAnalysis then
      (.ok (.obj [("error", .str "Failed to parse gap analysis response"),
                  ("raw_response", responseText.elim Json.null Json.str)]), st1)
    else
      match gapAnalysis with
      | .obj fs =>
        if jsonIsStr ((lookupAssoc fs "error").getD .null) then
          (.ok (.obj [("error", .str "Failed to parse gap analysis response"),
                      ("raw_response", responseText.elim Json.null Json.str)]), st1)
        else
          -- metadata enrichment: `target_role or "Professional"`, level, timestamp,
          -- the extracted skills themselves; then cache under the serialized skills
          let roleValue := match targetRole with
            | some r => if r = "" then "Professional" else r
            | none => "Professional"
          let enriched := insertAssoc (insertAssoc (insertAssoc (insertAssoc fs
            "target_role" (.str roleValue))
            "experience_level" (.str experienceLevel))
            "analysis_date" (.str env.now))
            "extracted_skills" extractedSkills
          let skillsKey := match targetRole with
            | some r => if r = "" then "inferred" else r ++ "_" ++ experienceLevel
            | none => "inferred"
          let c2 := cacheSet st1.cache (pyJsonDumps extractedSkills)
            ("skills_gap_" ++ skillsKey) (.obj enriched)
          (.ok (.obj enriched), { st1 with cache := c2 })
      | _ =>
        (.ok (.obj [("error", .str ("\x27" ++ "object\x27 has no attribute \x27get\x27"))]), st1)

/-- The effective `LLMAnalyzer.analyze_skills_gap` (the later of the two definitions):
extract detailed skills, then hand whatever came back — error record included — to
`analyze_skills_gap_from_extracted`. -/
def analyzeSkillsGap (env : Env) (resumeText : String) (targetRole : Option String)
    (experienceLevel : String) (st : OrchState) : Except PyExc Json × OrchState :=
  let (extracted, st1) := extractDetailedSkills env resumeText st
  analyzeSkillsGapFromExtracted env extracted targetRole experienceLevel st1

/-!  ## `get_overall_score` and `comprehensive_analysis` -/

/-- No word character immediately before position `i` (the leading `\b` of a pattern
whose first character is a digit). -/
def noWordBefore (cs : List Char) (i : Nat) : Bool :=
  i == 0 || !(wordAt cs (i - 1))

/-- Try `re.search(r"\b(100|[0-9]\x7b1,2\x7d)\b", text)` at one position:
the alternation tries the literal `100` first, then two digits, then one, each
requiring a trailing `\b`. -/
def scoreTokenAt (cs : List Char) (i : Nat) : Option Int :=
  if noWordBefore cs i then
    if listStartsWith "100".data (cs.drop i) && !wordAt cs (i + 3) then some 100
    else if (charAt cs i).isDigit && (charAt cs (i + 1)).isDigit && !wordAt cs (i + 2) then
      some (((charAt cs i).toNat - 48) * 10 + ((charAt cs (i + 1)).toNat - 48))
    else if (charAt cs i).isDigit && !wordAt cs (i + 1) then
      some ((charAt cs i).toNat - 48)
    else none
  else none

/-- Leftmost match of the overall-score token pattern. -/
def searchScoreToken (cs : List Char) : Option Int :=
  go (cs.length + 1) 0
where
  go : Nat → Nat → Option Int
    | 0, _ => none
    | fuel + 1, i =>
      if i > cs.length then none
      else
        match scoreTokenAt cs i with
        | some v => some v
        | none => go fuel (i + 1)

/-- `LLMAnalyzer.get_overall_score`: one inference call, first integer token in
0-100, clamped. -/
def getOverallScore (env : Env) (_resumeText : String) (st : OrchState) :
    Option Int × OrchState :=
  let (text, st1) := callLLM env st
  (match text with
   | none => none
   | some s =>
     if s = "" then none
     else
       match searchScoreToken s.data with
       | none => none
       | some v => some (max 0 (min 100 v)), st1)

/-- The typed empty substructure defaults of the comprehensive result. -/
def skillsDefault : Json :=
  .obj [("summary", .str ""), ("technical", .arr []), ("soft_skills", .arr [])]

def suggestionsDefault : Json :=
  .obj [("summary", .str ""), ("priority_improvements", .arr [])]

/-- `LLMAnalyzer.comprehensive_analysis` body inside its `try`. -/
def comprehensiveAnalysisCore (env : Env) (resumeText : String) (useCache : Bool)
    (st : OrchState) : Except PyExc Json × OrchState :=
  let afterCache :=
    if useCache then
      let (hit, c1) := cacheGet st.cache resumeText "comprehensive"
      match hit with
      | some c => if pyTruthy c then (some c, { st with cache := c1 }) else (none, { st with cache := c1 })
      | none => (none, { st with cache := c1 })
    else (none, st)
  match afterCache with
  | (some cached, st1) => (pySetItem cached "cached" (.bool true), st1)
  | (none, st1) =>
    let (responseText, st2) := callLLM env st1
    match responseText with
    | none => (.ok noResponseError, st2)
    | some s =>
      if s = "" then (.ok noResponseError, st2)
      else
        let analysisData := parseResponse s
        match isSentinelOnly analysisData with
        | .error e => (.error e, st2)
        | .ok true =>
          match pyGetD analysisData "raw_response" .null with
          | .error e => (.error e, st2)
          | .ok raw => (.ok (invalidJsonError raw), st2)
        | .ok false =>
          match pyContains analysisData "error" with
          | .error e => (.error e, st2)
          | .ok true => (.ok analysisData, st2)
          | .ok false =>
            match pyGetD analysisData "strengths" (.obj []) with
            | .error e => (.error e, st2)
            | .ok strengthsVal =>
              match normalizeStrengths strengthsVal with
              | .error e => (.error e, st2)
              | .ok sNorm =>
                match pyGetD analysisData "weaknesses" (.obj []) with
                | .error e => (.error e, st2)
                | .ok weaknessesVal =>
                  match normalizeWeaknesses weaknessesVal with
                  | .error e => (.error e, st2)
                  | .ok wNorm =>
                    match pyGetD analysisData "skills" skillsDefault with
                    | .error e => (.error e, st2)
                    | .ok skillsVal =>
                      match pyGetD analysisData "suggestions" suggestionsDefault with
                      | .error e => (.error e, st2)
                      | .ok suggestionsVal =>
                        let base : List (String × Json) :=
                          [("strengths", sNorm.toJson), ("weaknesses", wNorm.toJson),
                           ("skills", skillsVal), ("suggestions", suggestionsVal),
                           ("cached", .bool false)]
                        let (ov, st3) := getOverallScore env resumeText st2
                        let result : Json :=
                          .obj (insertAssoc base "overall_score"
                            (ov.elim Json.null (fun v => Json.num v)))
                        let st4 := { st3 with
                          cache := cacheSet st3.cache resumeText "comprehensive" result }
                        (.ok result, st4)

/-- `LLMAnalyzer.comprehensive_analysis` with its `try/except`. -/
def comprehensiveAnalysis (env : Env) (resumeText : String) (useCache : Bool)
    (st : OrchState) : Json × OrchState :=
  match comprehensiveAnalysisCore env resumeText useCache st with
  | (.ok r, st1) => (r, st1)
  | (.error e, st1) =>
    (.obj [("error", .str ("Comprehensive analysis failed: " ++ e.message))], st1)

/-!  ## `ResumeScorer`

resume_scorer.py.  The scorer's model-backed sub-assessments call `self.llm.query(…)`
where `self.llm` is an `LLMAnalyzer`; attribute lookup on that object resolves against
the class's method set and the instance attributes assigned in `__init__`, listed
verbatim below.  The hypothetical behaviour of a `query` attribute, were one present,
is an oracle argument, so the embedding proves rather than assumes which branch runs. -/

/-- Every attribute resolvable on an `LLMAnalyzer` instance: the methods defined in
`class LLMAnalyzer` (llm_analyzer.py; `analyze_skills_gap` appears twice in the class
body, one name survives) and the instance attributes assigned in `__init__`. -/
def llmAnalyzerAttrNames : List String :=
  ["__init__", "_initialize_client", "_initialize_langchain", "test_connection",
   "get_strengths_prompt", "get_weaknesses_prompt", "get_skills_extraction_prompt",
   "get_improvement_suggestions_prompt", "get_job_match_prompt",
   "_call_ollama_with_retry", "_call_langchain_with_retry", "analyze_resume",
   "_parse_response", "_normalize_strengths", "_normalize_weaknesses",
   "get_strengths", "get_weaknesses", "get_skills", "get_improvements",
   "extract_detailed_skills", "get_industry_skills", "analyze_skills_gap",
   "analyze_skills_gap_from_extracted", "_format_skills_for_prompt",
   "comprehensive_analysis", "get_overall_score_prompt", "get_overall_score",
   "get_token_stats",
   "ollama_host", "model", "max_retries", "timeout", "temperature", "max_tokens",
   "use_langchain", "token_counter", "cache", "client", "lc_model"]

/-- `self.llm.query(prompt)`: attribute lookup first — `AttributeError` when the
class defines no such name — then the call itself, whose hypothetical result is the
oracle `queryResp`. -/
def queryCall (queryResp : Except PyExc String) : Except PyExc String :=
  if llmAnalyzerAttrNames.contains "query" then queryResp
  else .error (.attributeError "\x27LLMAnalyzer\x27 object has no attribute \x27query\x27")

/-- Numeric coercion at an arithmetic use site (`x * 0.6` etc.): numbers and bools
work, anything else raises `TypeError`. -/
def pyNumVal (j : Json) : Except PyExc Q :=
  match j with
  | .num q => .ok q
  | .bool b => .ok (if b then 1 else 0)
  | _ => .error (.typeError "unsupported operand type")

/-- `len(x)` on a JSON-shaped value. -/
def pyLen (j : Json) : Except PyExc Nat :=
  match j with
  | .arr xs => .ok xs.length
  | .obj fs => .ok fs.length
  | .str s => .ok s.data.length
  | _ => .error (.typeError "object has no len")

/-!  ### Regex counters -/

/-- Length of the digit run starting at `i`. -/
def digitRunLen (cs : List Char) (i : Nat) : Nat :=
  ((cs.drop i).takeWhile Char.isDigit).length

/-- Length of the `\s` run starting at `i` (Python `\s`, ASCII fragment). -/
def wsRunLen (cs : List Char) (i : Nat) : Nat :=
  ((cs.drop i).takeWhile isPyWs).length

/-- `\b` immediately after a non-empty match ending at position `e`. -/
def trailingBoundary (cs : List Char) (e : Nat) : Bool :=
  isWordChar (charAt cs (e - 1)) != wordAt cs e

/-- Count non-overlapping occurrences of the word-bounded literal `verb`
(`re.findall(r'\b' + verb + r'\b', text)` for an alphabetic verb). -/
def countWordOccGo (verb : List Char) (cs : List Char) : Nat → Nat → Nat
  | 0, _ => 0
  | fuel + 1, i =>
    if i ≥ cs.length then 0
    else if noWordBefore cs i && listStartsWith verb (cs.drop i)
            && !wordAt cs (i + verb.length) then
      1 + countWordOccGo verb cs fuel (i + verb.length)
    else countWordOccGo verb cs fuel (i + 1)

def countWordOcc (cs verb : List Char) : Nat :=
  countWordOccGo verb cs (cs.length + 1) 0

/-- `ResumeScorer.ACTION_VERBS`. -/
def ACTION_VERBS : List (String × List String) :=
  [("leadership", ["led", "managed", "directed", "supervised", "coordinated", "spearheaded"]),
   ("achievement", ["achieved", "accomplished", "delivered", "completed", "executed"]),
   ("improvement", ["improved", "enhanced", "optimized", "streamlined", "accelerated"]),
   ("innovation", ["created", "designed", "developed", "invented", "pioneered"]),
   ("analysis", ["analyzed", "evaluated", "assessed", "identified", "determined"]),
   ("collaboration", ["collaborated", "partnered", "cooperated", "contributed", "supported"])]

/-- Total action-verb occurrences over the lower-cased resume. -/
def actionVerbTotal (lower : List Char) : Nat :=
  (ACTION_VERBS.flatMap Prod.snd).foldl (fun acc v => acc + countWordOcc lower v.data) 0

/-- The time units of the quantifiable-metric pattern, alternation order as written
(each `s?` greedy). -/
def quantUnits : List String :=
  ["years", "year", "months", "month", "weeks", "week", "days", "day", "hours", "hour"]

/-- The optional `(?:\s*(?:years?|months?|…))?` tail at position `p`: try the group
with a maximal whitespace run and each unit in order (a shorter whitespace run is
always followed by whitespace, never a unit letter, so it cannot help), each subject
to the trailing `\b`. -/
def quantUnitTail (cs : List Char) (p : Nat) : Option Nat :=
  let q := p + wsRunLen cs p
  (quantUnits.map String.data).foldl
    (fun acc u =>
      match acc with
      | some e => some e
      | none =>
        if listStartsWith u (cs.drop q) && trailingBoundary cs (q + u.length) then
          some (q + u.length)
        else none)
    none

/-- The third alternative `\d+\+?(?:\s*unit)?` continued after the digit run ending at
`base`, with the regex backtracking order: keep the `+` if present (group, then no
group), else drop it (group, then no group), each candidate checked against the
trailing `\b`.  Returns the end position of the whole match. -/
def quantPlusTail (cs : List Char) (base : Nat) : Option Nat :=
  let without :=
    match quantUnitTail cs base with
    | some e => some e
    | none => if trailingBoundary cs base then some base else none
  if charAt cs base = '+' then
    match quantUnitTail cs (base + 1) with
    | some e => some e
    | none => if trailingBoundary cs (base + 1) then some (base + 1) else without
  else without

/-- One position of `re.findall(r'\b(?:\d+%|\$\d+[KM]?|\d+\+?(?:\s*(?:years?|months?|weeks?|days?|hours?))?)\b', text)`:
the three alternatives in order, each with the leading and trailing `\b`
(a digit is a word character, `%` and `$` are not).  Returns the match length. -/
def quantAt (cs : List Char) (i : Nat) : Option Nat :=
  let d := digitRunLen cs i
  let alt1 :=
    if noWordBefore cs i && d ≥ 1 && charAt cs (i + d) = '%' && wordAt cs (i + d + 1) then
      some (d + 1)
    else none
  match alt1 with
  | some l => some l
  | none =>
    let alt2 :=
      if charAt cs i = '$' && !noWordBefore cs i then
        let d2 := digitRunLen cs (i + 1)
        if d2 ≥ 1 then
          let afterD := i + 1 + d2
          if charAt cs afterD = 'K' || charAt cs afterD = 'M' then
            if !wordAt cs (afterD + 1) then some (d2 + 2) else none
          else if !wordAt cs afterD then some (d2 + 1) else none
        else none
      else none
    match alt2 with
    | some l => some l
    | none =>
      if noWordBefore cs i && d ≥ 1 then
        (quantPlusTail cs (i + d)).map (fun e => e - i)
      else none

/-- Count the non-overlapping quantifiable-metric matches. -/
def quantCountGo (cs : List Char) : Nat → Nat → Nat
  | 0, _ => 0
  | fuel + 1, i =>
    if i ≥ cs.length then 0
    else
      match quantAt cs i with
      | some l => 1 + quantCountGo cs fuel (i + l)
      | none => quantCountGo cs fuel (i + 1)

def quantifiableCount (cs : List Char) : Nat :=
  quantCountGo cs (cs.length + 1) 0

/-- The tail `\s*(?:\+)?\s*(?:years?|yrs?)` of the years-of-experience pattern at
position `p` (no trailing `\b` in this pattern). -/
def yearTail (cs : List Char) (p : Nat) : Option Nat :=
  let p1 := p + wsRunLen cs p
  let p2 := if charAt cs p1 = '+' then p1 + 1 else p1
  let p3 := p2 + wsRunLen cs p2
  (["years", "year", "yrs", "yr"].map String.data).foldl
    (fun acc u =>
      match acc with
      | some e => some e
      | none => if listStartsWith u (cs.drop p3) then some (p3 + u.length) else none)
    none

/-- One position of `re.findall(r'(\d\x7b1,2\x7d)\s*(?:\+)?\s*(?:years?|yrs?)', text,
re.IGNORECASE)`: group value and match end, greedy two digits before one. -/
def yearAt (cs : List Char) (i : Nat) : Option (Int × Nat) :=
  if (charAt cs i).isDigit then
    let try2 :=
      if (charAt cs (i + 1)).isDigit then
        (yearTail cs (i + 2)).map (fun e =>
          ((((charAt cs i).toNat - 48) * 10 + ((charAt cs (i + 1)).toNat - 48) : Nat), e))
      else none
    match try2 with
    | some (v, e) => some ((v : Int), e)
    | none => (yearTail cs (i + 1)).map (fun e => ((((charAt cs i).toNat - 48 : Nat) : Int), e))
  else none

/-- All year-pattern group values, left to right, non-overlapping. -/
def yearMatchesGo (cs : List Char) : Nat → Nat → List Int
  | 0, _ => []
  | fuel + 1, i =>
    if i ≥ cs.length then []
    else
      match yearAt cs i with
      | some (v, e) => v :: yearMatchesGo cs fuel e
      | none => yearMatchesGo cs fuel (i + 1)

def yearMatches (cs : List Char) : List Int :=
  yearMatchesGo cs (cs.length + 1) 0

/-!  ### The five component calculators -/

/-- `ResumeScorer.WEIGHTS`, read as exact decimals. -/
def WEIGHTS : List (String × Q) :=
  [("completeness", Q.dec 25 2), ("content_quality", Q.dec 30 2), ("formatting", Q.dec 15 2),
   ("keyword_relevance", Q.dec 20 2), ("experience", Q.dec 10 2)]

def weightOf (k : String) : Q := (lookupAssoc WEIGHTS k).getD 0

/-- `ResumeScorer.ESSENTIAL_SECTIONS` and the per-section alternation patterns, each a
plain alternation of literals, so `re.search` is substring presence of any literal. -/
def sectionPatterns : List (String × List String) :=
  [("contact", ["contact", "phone", "email", "linkedin", "address"]),
   ("summary", ["professional summary", "summary", "objective", "profile"]),
   ("experience", ["work experience", "experience", "professional experience", "employment"]),
   ("education", ["education", "degree", "university", "college", "school"]),
   ("skills", ["skills", "technical skills", "competencies", "expertise", "proficiencies"])]

/-- `ResumeScorer.calculate_completeness_score`: found-section count and the score
`int(found/5 * 100)`. -/
def calculateCompletenessScore (resumeText : String) : Int × Nat :=
  let lower := pyLower resumeText.data
  let foundCount := (sectionPatterns.filter
    (fun p => p.2.any (fun lit => containsSub lower lit.data))).length
  (ratTrunc ((foundCount : Q) / (sectionPatterns.length : Q) * 100), foundCount)

structure ContentQualityResult where
  score : Int
  llmScore : Q
  actionVerbCount : Nat
  quantifiableCount : Nat
  llmAssessment : String

/-- `ResumeScorer.calculate_content_quality_score`.  The model-backed assessment is
`self.llm.query(...)` guarded by `try/except`; its JSON extraction
(`re.search(r'\x7b.*\x7d', resp, re.DOTALL)` then `json.loads`) sits in an inner
`try` whose decode failure falls back to 50.  The blend is 60% model score, 40%
manual metrics (action verbs ×15, quantifiable metrics ×10, each capped at 100). -/
def calculateContentQualityScore (queryResp : Except PyExc String) (resumeText : String) :
    Except PyExc ContentQualityResult :=
  let lower := pyLower resumeText.data
  let avCount := actionVerbTotal lower
  let qCount := quantifiableCount resumeText.data
  let (llmScoreJ, assessment) :=
    match queryCall queryResp with
    | .error e => (Json.num 50, "Assessment error: " ++ e.message)
    | .ok r =>
      match regexBraceSpan r.data with
      | none => (Json.num 50, "Could not parse LLM response")
      | some span =>
        match pyJsonLoadsL span with
        | none => (Json.num 50, "LLM response parsing error")
        | some (.obj fs) =>
          ((lookupAssoc fs "score").getD (.num 50),
           match (lookupAssoc fs "explanation").getD (.str "") with
           | .str s => s
           | _ => "")
        | some _ => (Json.num 50, "LLM response parsing error")
  match pyNumVal llmScoreJ with
  | .error e => .error e
  | .ok llmQ =>
    let actionVerbScore : Nat := min 100 (avCount * 15)
    let achievementScore : Nat := min 100 (qCount * 10)
    let manual : Q := ((actionVerbScore : Q) + (achievementScore : Q)) / 2
    .ok { score := ratTrunc (llmQ * Q.dec 6 1 + manual * Q.dec 4 1)
          llmScore := llmQ
          actionVerbCount := avCount
          quantifiableCount := qCount
          llmAssessment := assessment }

/-- `ResumeScorer.calculate_formatting_score`: the average of the four banded
sub-checks. -/
def calculateFormattingScore (resumeText : String) : Int :=
  let cs := resumeText.data
  let wordCount := (countWordsGo cs (cs.length + 1) 0 false)
  let lengthScore : Nat :=
    if 400 ≤ wordCount && wordCount ≤ 2000 then 100
    else if 200 ≤ wordCount && wordCount < 400 then 70
    else if 2000 < wordCount && wordCount ≤ 3000 then 60
    else 40
  let bulletCount := (cs.filter (fun c => c = '-' || c = '•' || c = '*')).length
  let newlineCount := (cs.filter (fun c => c = '\n')).length
  let consistencyScore : Nat :=
    if bulletCount > 0 && newlineCount > 20 then 90
    else if bulletCount > 0 || newlineCount > 15 then 75
    else 50
  let doubleNewlines := dnlRunsGo cs (cs.length + 1)
  let clarityScore : Nat :=
    if doubleNewlines ≥ 4 then 95 else if doubleNewlines ≥ 2 then 80 else 50
  let allowed (c : Char) : Bool :=
    c.isAlphanum || isPyWs c || c = '-' || c = '•' || c = '*' || c = '.' ||
      c = '(' || c = ')' || c = '[' || c = ']'
  let specialCount := (cs.filter (fun c => !allowed c)).length
  let frac : Q := (specialCount : Q) / (max cs.length 1 : Q)
  let specialScore : Nat := if frac < Q.dec 5 2 then 95 else if frac < Q.dec 15 2 then 80 else 50
  ratTrunc (((lengthScore + consistencyScore + clarityScore + specialScore : Nat) : Q) / 4)
where
  /-- `len(text.split())`: count maximal non-whitespace runs. -/
  countWordsGo (cs : List Char) : Nat → Nat → Bool → Nat
    | 0, _, _ => 0
    | fuel + 1, i, inWord =>
      if i ≥ cs.length then 0
      else
        let w := !isPyWs (charAt cs i)
        (if w && !inWord then 1 else 0) + countWordsGo cs fuel (i + 1) w
  /-- `len(re.findall(r'\n\n+', text))`: maximal newline runs of length at least 2. -/
  dnlRunsGo (cs : List Char) : Nat → Nat
    | 0 => 0
    | fuel + 1 =>
      match cs with
      | '\n' :: '\n' :: rest => 1 + dnlRunsGo (rest.dropWhile (fun c => c = '\n')) fuel
      | _ :: rest => dnlRunsGo rest fuel
      | [] => 0

/-- `ResumeScorer._extract_tech_keywords`: the fixed dictionary, kept in source
order, filtered by substring presence in the lower-cased text. -/
def extractTechKeywords (resumeText : String) : List String :=
  let lower := pyLower resumeText.data
  ["python", "java", "javascript", "c++", "c#", "go", "rust", "php",
   "react", "angular", "vue", "node", "django", "flask", "spring",
   "sql", "mysql", "postgresql", "mongodb", "redis", "elasticsearch",
   "aws", "azure", "gcp", "docker", "kubernetes", "jenkins", "git",
   "agile", "scrum", "jira", "linux", "windows", "machine learning",
   "ai", "tensorflow", "pytorch", "pandas", "numpy", "api", "rest",
   "microservices", "cloud", "devops", "ci/cd"].filter
    (fun kw => containsSub lower kw.data)

structure KeywordResult where
  score : Int
  foundKeywords : Json
  missingKeywords : Json

/-- `ResumeScorer.calculate_keyword_relevance_score`.  With no target keywords (or an
empty list — both falsy) a model call identifies them, falling back to the fixed
dictionary when the call raises or its reply carries no brace span; with target
keywords supplied it is a pure containment check.  Scoring: 40 when nothing found,
else the found/total ratio ×100, +15 capped at 100 when at least 15 found. -/
def calculateKeywordRelevanceScore (queryResp : Except PyExc String) (resumeText : String)
    (targetKeywords : Option (List String)) : Except PyExc KeywordResult :=
  let fallbackFound : Json := .arr ((extractTechKeywords resumeText).map Json.str)
  let useLlm := match targetKeywords with
    | none => true
    | some ks => ks.isEmpty
  let (found, missing) : Json × Json :=
    if useLlm then
      match queryCall queryResp with
      | .error _ => (fallbackFound, .arr [])
      | .ok r =>
        match regexBraceSpan r.data with
        | none => (fallbackFound, .arr [])
        | some span =>
          match pyJsonLoadsL span with
          | none => (fallbackFound, .arr [])
          | some (.obj fs) =>
            ((lookupAssoc fs "found_keywords").getD (.arr []),
             (lookupAssoc fs "missing_keywords").getD (.arr []))
          | some _ => (fallbackFound, .arr [])
    else
      let ks := targetKeywords.getD []
      let lower := pyLower resumeText.data
      (.arr ((ks.filter (fun k => containsSub lower (pyLower k.data))).map Json.str),
       .arr ((ks.filter (fun k => !containsSub lower (pyLower k.data))).map Json.str))
  match pyLen found with
  | .error e => .error e
  | .ok keywordCount =>
    match pyLen missing with
    | .error e => .error e
    | .ok missingCount =>
      let score0 : Int :=
        if keywordCount = 0 then 40
        else
          let totalRelevant := keywordCount + missingCount
          if totalRelevant > 0 then
            ratTrunc ((keywordCount : Q) / (totalRelevant : Q) * 100)
          else 70
      let score := if keywordCount ≥ 15 then min 100 (score0 + 15) else score0
      .ok { score := score, foundKeywords := found, missingKeywords := missing }

structure ExperienceResult where
  score : Int
  yearsOfExperience : Q
  careerProgression : Json
  coherenceScore : Q
  depthScore : Q

/-- The `\x7b"entry": 60, "mid": 80, "senior": 95, "unclear": 50\x7d.get(p, 50)`
progression map (default 50 for anything else). -/
def progressionScoreOf (p : Json) : Q :=
  match p with
  | .str "entry" => 60
  | .str "mid" => 80
  | .str "senior" => 95
  | .str "unclear" => 50
  | _ => 50

/-- `ResumeScorer.calculate_experience_score`: regex years (highest mention), a
model assessment guarded by `try/except` (falling back to coherence = depth = 50 with
the progression left `"unknown"`), then
`int(years_score*0.4 + progression_score*0.3 + coherence*0.3)` with
`years_score = min(100, max(0, years*10))`. -/
def calculateExperienceScore (queryResp : Except PyExc String) (resumeText : String) :
    Except PyExc ExperienceResult :=
  let found := yearMatches (pyLower resumeText.data)
  let years0 : Int := found.foldl max 0
  let (yearsJ, progression, coherenceJ, depthJ) :=
    match queryCall queryResp with
    | .error _ => (Json.num years0, Json.str "unknown", Json.num 50, Json.num 50)
    | .ok r =>
      match regexBraceSpan r.data with
      | none => (Json.num years0, Json.str "unknown", Json.num 50, Json.num 50)
      | some span =>
        match pyJsonLoadsL span with
        | none => (Json.num years0, Json.str "unknown", Json.num 50, Json.num 50)
        | some (.obj fs) =>
          let ydet := (lookupAssoc fs "years_detected").getD .null
          ((if pyTruthy ydet then ydet else Json.num years0),
           (lookupAssoc fs "progression").getD (.str "unknown"),
           (lookupAssoc fs "coherence").getD (.num 50),
           (lookupAssoc fs "depth").getD (.num 50))
        | some _ => (Json.num years0, Json.str "unknown", Json.num 50, Json.num 50)
  match pyNumVal yearsJ with
  | .error e => .error e
  | .ok yq =>
    match pyNumVal coherenceJ with
    | .error e => .error e
    | .ok cq =>
      match pyNumVal depthJ with
      | .error e => .error e
      | .ok dq =>
        let yearsScore : Q := min 100 (max 0 (yq * 10))
        let pScore := progressionScoreOf progression
        .ok { score := ratTrunc (yearsScore * Q.dec 4 1 + pScore * Q.dec 3 1 + cq * Q.dec 3 1)
              yearsOfExperience := yq
              careerProgression := progression
              coherenceScore := cq
              depthScore := dq }

/-- `ResumeScorer._classify_resume`. -/
def classifyResume (score : Int) : String :=
  if 90 ≤ score then "Excellent"
  else if 75 ≤ score then "Good"
  else if 60 ≤ score then "Average"
  else "Needs Improvement"

/-- `ResumeScorer._generate_improvement_suggestions`.  When `completeness < 80`, the
source appends its message to the local list `missing` rather than to `suggestions`,
so nothing is emitted for low completeness; the other four cutoffs append normally,
and an empty list is replaced by the congratulatory entry. -/
def generateImprovementSuggestions (completeness content formatting keyword experience : Int) :
    List String :=
  let s0 : List String := []
  let _missing : List String :=
    if completeness < 80 then
      if completeness < 100 then
        ["Ensure all essential sections are present (contact, summary, experience, education, skills)"]
      else []
    else []
  let s1 := if content < 75 then
    s0 ++ ["Improve content quality by using more action verbs and adding quantifiable achievements (e.g., \x27increased sales by 25%\x27)"]
    else s0
  let s2 := if formatting < 75 then
    s1 ++ ["Improve formatting: Use consistent bullet points, maintain proper spacing between sections, and keep to 1-2 pages"]
    else s1
  let s3 := if keyword < 75 then
    s2 ++ ["Include more industry-relevant keywords and technical skills that match your target role"]
    else s2
  let s4 := if experience < 75 then
    s3 ++ ["Highlight career progression and demonstrate growth in your roles; clarify years of experience"]
    else s3
  if s4.isEmpty then
    ["Your resume is performing well! Consider fine-tuning the weaker components for a perfect score."]
  else s4

/-- The weighted overall blend of `score_resume` (lines 483-490):
`int(Σ component × WEIGHTS[name])`. -/
def overallScoreOfComponents (completeness contentQuality formatting keyword experience : Int) :
    Int :=
  ratTrunc ((completeness : Q) * weightOf "completeness" +
    (contentQuality : Q) * weightOf "content_quality" +
    (formatting : Q) * weightOf "formatting" +
    (keyword : Q) * weightOf "keyword_relevance" +
    (experience : Q) * weightOf "experience")

structure ComponentReport where
  score : Int
  weight : Q
  weightedScore : Int

def mkComponentReport (score : Int) (name : String) : ComponentReport :=
  { score := score, weight := weightOf name, weightedScore := ratTrunc ((score : Q) * weightOf name) }

structure ScoreReport where
  overallScore : Int
  classification : String
  timestamp : String
  completeness : ComponentReport
  contentQuality : ComponentReport
  formatting : ComponentReport
  keywordRelevance : ComponentReport
  experience : ComponentReport
  improvementSuggestions : List String

/-- `ResumeScorer.score_resume`: the five calculators (the three model-backed ones
each with their own hypothetical query result), the weighted overall score, the
classification and the suggestion list. -/
def scoreResume (qContent qKeyword qExperience : Except PyExc String) (now : String)
    (resumeText : String) (targetKeywords : Option (List String)) :
    Except PyExc ScoreReport :=
  let (completenessScore, _) := calculateCompletenessScore resumeText
  match calculateContentQualityScore qContent resumeText with
  | .error e => .error e
  | .ok cq =>
    let formattingScore := calculateFormattingScore resumeText
    match calculateKeywordRelevanceScore qKeyword resumeText targetKeywords with
    | .error e => .error e
    | .ok kw =>
      match calculateExperienceScore qExperience resumeText with
      | .error e => .error e
      | .ok ex =>
        let overall := overallScoreOfComponents completenessScore cq.score formattingScore
          kw.score ex.score
        .ok { overallScore := overall
              classification := classifyResume overall
              timestamp := now
              completeness := mkComponentReport completenessScore "completeness"
              contentQuality := mkComponentReport cq.score "content_quality"
              formatting := mkComponentReport formattingScore "formatting"
              keywordRelevance := mkComponentReport kw.score "keyword_relevance"
              experience := mkComponentReport ex.score "experience"
              improvementSuggestions := generateImprovementSuggestions completenessScore
                cq.score formattingScore kw.score ex.score }

/-!  ### Result observers (used to state properties of fallible results) -/

def isOkE {ε α : Type} : Except ε α → Bool
  | .ok _ => true
  | .error _ => false

def okLlmScore : Except PyExc ContentQualityResult → Option Q
  | .ok r => some r.llmScore
  | .error _ => none

def okFoundKeywords : Except PyExc KeywordResult → Option Json
  | .ok r => some r.foundKeywords
  | .error _ => none

def okMissingKeywords : Except PyExc KeywordResult → Option Json
  | .ok r => some r.missingKeywords
  | .error _ => none

def okCoherence : Except PyExc ExperienceResult → Option Q
  | .ok r => some r.coherenceScore
  | .error _ => none

def okProgression : Except PyExc ExperienceResult → Option Json
  | .ok r => some r.careerProgression
  | .error _ => none

/-!  ## Concrete witness inputs -/

/-- A strengths payload with out-of-range, negative and non-numeric confidences and
items missing category/importance. -/
def strengthsSample : Json :=
  .obj [("summary", .str "s"),
        ("strengths", .arr
          [.obj [("strength", .str "a"), ("confidence", .num 150)],
           .obj [("strength", .str "b"), ("confidence", .num (-5))],
           .obj [("strength", .str "c"), ("confidence", .str "abc")],
           .obj [("strength", .str "d"), ("confidence", .num 37), ("category", .str "skills")]])]

/-- A weaknesses payload exercising the same edge confidences. -/
def weaknessesSample : Json :=
  .obj [("overall_assessment", .str "w"),
        ("weaknesses", .arr
          [.obj [("weakness", .str "a"), ("confidence", .num 101)],
           .obj [("weakness", .str "b"), ("confidence", .null)]])]

/-- A transport whose every aggregated call yields one small valid JSON object. -/
def envGood : Env :=
  { tr := fun _ => some "\x7b\"summary\": \"good\"\x7d", now := "2026-01-01T00:00:00" }

/-- A transport for the skills-gap counterexample: the extraction call is exhausted,
the gap call answers with a small valid JSON object. -/
def trGapA : Nat → Option String :=
  fun n => if n = 0 then none else some "\x7b\"summary\": \"ok\"\x7d"

/-- A transport whose every aggregated call is exhausted. -/
def trNone : Nat → Option String := fun _ => none

def envGapA : Env := { tr := trGapA, now := "2026-01-01T00:00:00" }

def envGapB : Env := { tr := trNone, now := "2026-01-01T00:00:00" }

/-- The empty two-tier cache with no calls issued. -/
def st0Empty : OrchState := { cache := { mem := [], disk := [] }, calls := 0 }

/-- A state whose both cache tiers already hold an (older) comprehensive entry for
the subject text `"cv"`, to exercise the cache-read bypass. -/
def stPre : OrchState :=
  { cache := { mem := [(generateKey "cv" "comprehensive", Json.str "old")],
               disk := [(generateKey "cv" "comprehensive", Json.str "old")] },
    calls := 0 }

/-- The stage-1 failure record of `extract_detailed_skills`. -/
def extractFailRec : Json :=
  .obj [("error", .str "Failed to parse skills extraction response")]

/-- The gap report the effective pipeline produces in the counterexample run: the
stage-1 error record rides along under `extracted_skills`, no top-level error. -/
def gapReportA : Json :=
  .obj [("summary", .str "ok"),
        ("target_role", .str "Professional"),
        ("experience_level", .str "mid"),
        ("analysis_date", .str "2026-01-01T00:00:00"),
        ("extracted_skills", extractFailRec)]

/-!  # Theorems -/

/-- `lookupAssoc` after inserting the same key. -/
theorem lookupAssoc_insertAssoc_self {α : Type} (l : List (String × α)) (k : String) (v : α) :
    lookupAssoc (insertAssoc l k v) k = some v := by
  induction l with
  | nil => simp [insertAssoc, lookupAssoc]
  | cons hd tl ih =>
    by_cases h : hd.1 = k
    · simp [insertAssoc, lookupAssoc, h]
    · simp [insertAssoc, lookupAssoc, h, ih]

/-- `lookupAssoc` after inserting a different key. -/
theorem lookupAssoc_insertAssoc_ne {α : Type} (l : List (String × α)) (k k2 : String) (v : α)
    (h : k ≠ k2) : lookupAssoc (insertAssoc l k v) k2 = lookupAssoc l k2 := by
  induction l with
  | nil => simp [insertAssoc, lookupAssoc, h]
  | cons hd tl ih =>
    by_cases h1 : hd.1 = k
    · simp [insertAssoc, lookupAssoc, h1, h]
    · simp only [insertAssoc, h1, if_false]
      by_cases h2 : hd.1 = k2 <;> simp [lookupAssoc, h2, ih]

/-- Single-character containment agrees with list membership. -/
theorem containsSub_single_iff (cs : List Char) (c : Char) :
    containsSub cs [c] = true ↔ c ∈ cs := by
  induction cs with
  | nil => simp [containsSub, listStartsWith]
  | cons d rest ih =>
    simp only [containsSub, listStartsWith, Bool.or_eq_true, Bool.and_eq_true, List.mem_cons, ih,
      decide_eq_true_eq]
    constructor
    · rintro (⟨h, _⟩ | h)
      · exact Or.inl h
      · exact Or.inr h
    · rintro (h | h)
      · exact Or.inl ⟨h, by simp [listStartsWith]⟩
      · exact Or.inr h

/-- Replacement by the empty string only removes characters. -/
theorem mem_of_mem_pyReplaceGo_nil (pat : List Char) :
    ∀ (fuel : Nat) (cs : List Char) (c : Char), c ∈ pyReplaceGo pat [] fuel cs → c ∈ cs := by
  intro fuel
  induction fuel with
  | zero => intro cs c h; simpa [pyReplaceGo] using h
  | succ n ih =>
    intro cs c h
    match cs with
    | [] => simp [pyReplaceGo] at h
    | d :: rest =>
      simp only [pyReplaceGo] at h
      by_cases hm : listStartsWith pat (d :: rest) = true
      · rw [if_pos hm] at h
        simp only [List.nil_append] at h
        have := ih _ _ h
        exact List.mem_cons_of_mem d (List.mem_of_mem_drop this)
      · rw [if_neg hm] at h
        rcases List.mem_cons.mp h with h1 | h1
        · exact h1 ▸ List.mem_cons_self d rest
        · exact List.mem_cons_of_mem d (ih _ _ h1)

theorem mem_of_mem_pyReplace_nil (cs pat : List Char) (c : Char)
    (h : c ∈ pyReplace cs pat []) : c ∈ cs := by
  unfold pyReplace at h
  by_cases he : pat.isEmpty
  · simpa [he] using h
  · rw [if_neg he] at h
    exact mem_of_mem_pyReplaceGo_nil pat cs.length cs c h

theorem mem_of_mem_pyStrip (cs : List Char) (c : Char) (h : c ∈ pyStrip cs) : c ∈ cs := by
  unfold pyStrip at h
  rw [List.mem_reverse] at h
  have h2 := (List.dropWhile_sublist _).mem h
  rw [List.mem_reverse] at h2
  exact (List.dropWhile_sublist (l := cs) isPyWs).mem h2

/-- The fence-stripping normalisation introduces no new characters. -/
theorem mem_of_mem_cleanedOf (s : String) (c : Char) (h : c ∈ cleanedOf s) : c ∈ s.data := by
  unfold cleanedOf at h
  have h1 := mem_of_mem_pyStrip _ _ h
  have h2 := mem_of_mem_pyReplace_nil _ _ _ h1
  have h3 := mem_of_mem_pyReplace_nil _ _ _ h2
  exact mem_of_mem_pyStrip _ _ h3

/-- `rfind` misses exactly when the character is absent. -/
theorem rIdxOfC_eq_none_of_not_mem (cs : List Char) (c : Char) (h : c ∉ cs) :
    rIdxOfC cs c = none := by
  induction cs with
  | nil => rfl
  | cons d rest ih =>
    simp only [List.mem_cons, not_or] at h
    simp [rIdxOfC, ih h.2, Ne.symm h.1]

/-- The clamp `max(0, min(100, _))` lands in `[0, 100]`. -/
theorem clampConfidence_bounds (j : Json) :
    0 ≤ clampConfidence j ∧ clampConfidence j ≤ 100 := by
  unfold clampConfidence
  refine ⟨le_max_left 0 _, max_le (by norm_num) ?_⟩
  exact min_le_left 100 _

/-- Exhausted retries: `n` failing attempts starting at `attempt` run the loop `n`
times and yield `None`. -/
theorem retryGo_all_fail (outcomes : Nat → AttemptOutcome) :
    ∀ (n attempt : Nat), (∀ i, attempt ≤ i → i < attempt + n → (outcomes i).isFailure = true) →
      retryGo outcomes attempt n = (none, attempt + n) := by
  intro n
  induction n with
  | zero => intro attempt _; simp [retryGo]
  | succ m ih =>
    intro attempt h
    have hfail := h attempt (le_refl _) (by omega)
    simp only [retryGo]
    match hout : outcomes attempt with
    | .http200 body => rw [hout] at hfail; simp [AttemptOutcome.isFailure] at hfail
    | .http429 | .httpOther _ | .timeout | .connError | .unexpected =>
      have hrec := ih (attempt + 1) (fun i h1 h2 => h i (by omega) (by omega))
      simp only [hrec]
      have harith : attempt + 1 + m = attempt + (m + 1) := by omega
      rw [harith]

/-- Claim C3: with `max_retries = 3` and a transport whose every attempt fails (for
example, always times out), `_call_ollama_with_retry` performs exactly 3 attempts and
returns the explicit absence `None`; the loop is a bounded `for` with every failure
kind caught inside it, so it terminates and no exception reaches the caller. -/
theorem claim3_retry_ceiling (outcomes : Nat → AttemptOutcome)
    (h : ∀ i, i < 3 → (outcomes i).isFailure = true) :
    callOllamaWithRetry 3 outcomes = (none, 3) := by
  unfold callOllamaWithRetry
  exact retryGo_all_fail outcomes 3 0 (fun i _ h2 => h i (by omega))

/-- Witness for C3 at the always-timeout transport. -/
theorem claim3_retry_ceiling_witness :
    callOllamaWithRetry 3 (fun _ => AttemptOutcome.timeout) = (none, 3) :=
  claim3_retry_ceiling (fun _ => AttemptOutcome.timeout) (fun _ _ => rfl)

/-- Claim C7: the five scorer weights sum to exactly 1, and the weighted overall
score of `score_resume` is 100 at component scores `[100,100,100,100,100]` and 0 at
`[0,0,0,0,0]`. -/
theorem claim7_weight_partition :
    (WEIGHTS.map Prod.snd).sum = 1 ∧
    overallScoreOfComponents 100 100 100 100 100 = 100 ∧
    overallScoreOfComponents 0 0 0 0 0 = 0 := by
  refine ⟨by decide, by decide, by decide⟩

/-- Claim C8 evaluation: a completeness score of 70 (below the 80 cutoff) with every
other component at 100 produces only the congratulatory suggestion — the completeness
message is appended to a dead local list — while a content-quality score below 75
does produce its suggestion. -/
theorem claim8_completeness_suggestion_dropped :
    generateImprovementSuggestions 70 100 100 100 100 =
      ["Your resume is performing well! Consider fine-tuning the weaker components for a perfect score."] ∧
    generateImprovementSuggestions 100 70 100 100 100 =
      ["Improve content quality by using more action verbs and adding quantifiable achievements (e.g., \x27increased sales by 25%\x27)"] := by
  exact ⟨rfl, rfl⟩

/-- Claim C4: the extraction cascade of `_parse_response` runs in the fixed order
fence-strip-then-direct-parse, first-brace-to-last-brace slice, greedy regex span,
sentinel.  On `"noise ```json \x7b\"a\":1\x7d ``` noise"` the fence strip leaves
noise around the object, the direct parse fails, and the brace window yields
`\x7ba: 1\x7d`; on any input with no braces whose cleaned form is unparseable, every
stage fails and the raw-text sentinel is returned — the function is total, so no
exception is raised. -/
theorem claim4_normalizer_fallback (s : String)
    (hb1 : braceOpen ∉ s.data) (hb2 : braceClose ∉ s.data)
    (hparse : pyJsonLoadsL (cleanedOf s) = none) :
    parseResponse "noise ```json \x7b\"a\":1\x7d ``` noise" = Json.obj [("a", Json.num 1)] ∧
    parseResponse s = Json.obj [("raw_response", Json.str s)] := by
  constructor
  · rfl
  · have hm1 : braceOpen ∉ cleanedOf s := fun hmem => hb1 (mem_of_mem_cleanedOf s _ hmem)
    have hm2 : braceClose ∉ cleanedOf s := fun hmem => hb2 (mem_of_mem_cleanedOf s _ hmem)
    have hc1 : containsSub (cleanedOf s) [braceOpen] = false := by
      rw [← Bool.not_eq_true, containsSub_single_iff]
      exact hm1
    have hr : rIdxOfC (cleanedOf s) braceClose = none :=
      rIdxOfC_eq_none_of_not_mem _ _ hm2
    simp only [parseResponse]
    rw [hparse]
    simp [hc1, regexBraceSpan, hr]

/-- Witness for C4: `"hello world"` has no braces and no parseable structure. -/
theorem claim4_normalizer_fallback_witness :
    braceOpen ∉ "hello world".data ∧ braceClose ∉ "hello world".data ∧
    pyJsonLoadsL (cleanedOf "hello world") = none ∧
    parseResponse "hello world" = Json.obj [("raw_response", Json.str "hello world")] :=
  ⟨by decide, by decide, rfl,
    (claim4_normalizer_fallback "hello world" (by decide) (by decide) rfl).2⟩

/-- Claim C6: every item the strengths/weaknesses normalization emits has its
confidence clamped into `[0, 100]` (negative, over-range and non-numeric raw values
included), and items missing the category/importance/severity fields receive the
fixed defaults `"content"`, `"medium"` and `"minor"`. -/
theorem claim6_confidence_clamped (d1 d2 : Json) (r1 : StrengthsNorm) (r2 : WeaknessesNorm)
    (h1 : normalizeStrengths d1 = .ok r1) (h2 : normalizeWeaknesses d2 = .ok r2) :
    (∀ it ∈ r1.items, 0 ≤ it.confidence ∧ it.confidence ≤ 100) ∧
    (∀ it ∈ r2.items, 0 ≤ it.confidence ∧ it.confidence ≤ 100) ∧
    (∀ g, lookupAssoc g "category" = none → (normStrengthItem g).category = Json.str "content") ∧
    (∀ g, lookupAssoc g "importance" = none → (normStrengthItem g).importance = Json.str "medium") ∧
    (∀ g, lookupAssoc g "category" = none → (normWeaknessItem g).category = Json.str "content") ∧
    (∀ g, lookupAssoc g "severity" = none → (normWeaknessItem g).severity = Json.str "minor") := by
  refine ⟨?_, ?_, ?_, ?_, ?_, ?_⟩
  · intro it hit
    have hshape : ∃ g, it = normStrengthItem g := by
      cases d1 with
      | obj fs =>
        simp only [normalizeStrengths] at h1
        rcases hiter : pyIterate ((match (lookupAssoc fs "strengths").getD
            ((lookupAssoc fs "items").getD (Json.arr [])) with
          | Json.obj gs => ((lookupAssoc gs "items").getD (Json.arr []),
              (lookupAssoc gs "summary").getD ((lookupAssoc fs "summary").getD (Json.str "")))
          | Json.arr xs => (Json.arr xs, (lookupAssoc fs "summary").getD (Json.str ""))
          | _ => (Json.arr [], (lookupAssoc fs "summary").getD (Json.str ""))).1) with e | elems
        · rw [hiter] at h1; cases h1
        · rw [hiter] at h1
          cases h1
          rcases List.mem_map.mp hit with ⟨g, _, hg⟩
          exact ⟨g, hg.symm⟩
      | null => cases h1
      | bool b => cases h1
      | num q => cases h1
      | str s => cases h1
      | special s => cases h1
      | arr xs => cases h1
    rcases hshape with ⟨g, hg⟩
    rw [hg]
    exact clampConfidence_bounds _
  · intro it hit
    have hshape : ∃ g, it = normWeaknessItem g := by
      cases d2 with
      | obj fs =>
        simp only [normalizeWeaknesses] at h2
        rcases hiter : pyIterate ((match (lookupAssoc fs "weaknesses").getD
            ((lookupAssoc fs "items").getD (Json.arr [])) with
          | Json.obj gs => ((lookupAssoc gs "items").getD (Json.arr []),
              (lookupAssoc gs "summary").getD ((lookupAssoc fs "overall_assessment").getD
                ((lookupAssoc fs "summary").getD (Json.str ""))))
          | Json.arr xs => (Json.arr xs, (lookupAssoc fs "overall_assessment").getD
              ((lookupAssoc fs "summary").getD (Json.str "")))
          | _ => (Json.arr [], (lookupAssoc fs "overall_assessment").getD
              ((lookupAssoc fs "summary").getD (Json.str "")))).1) with e | elems
        · rw [hiter] at h2; cases h2
        · rw [hiter] at h2
          cases h2
          rcases List.mem_map.mp hit with ⟨g, _, hg⟩
          exact ⟨g, hg.symm⟩
      | null => cases h2
      | bool b => cases h2
      | num q => cases h2
      | str s => cases h2
      | special s => cases h2
      | arr xs => cases h2
    rcases hshape with ⟨g, hg⟩
    rw [hg]
    exact clampConfidence_bounds _
  · intro g hg; simp [normStrengthItem, hg]
  · intro g hg; simp [normStrengthItem, hg]
  · intro g hg; simp [normWeaknessItem, hg]
  · intro g hg; simp [normWeaknessItem, hg]

/-- Witness for C6 on payloads with confidences 150, −5, `"abc"`, 101 and `null` and
with category/importance/severity left absent. -/
theorem claim6_confidence_clamped_witness :
    (∃ r1 : StrengthsNorm, normalizeStrengths strengthsSample = Except.ok r1 ∧
      (∀ it ∈ r1.items, 0 ≤ it.confidence ∧ it.confidence ≤ 100) ∧
      r1.items.map (fun it => it.confidence) = [100, 0, 0, 37]) ∧
    (∃ r2 : WeaknessesNorm, normalizeWeaknesses weaknessesSample = Except.ok r2 ∧
      (∀ it ∈ r2.items, 0 ≤ it.confidence ∧ it.confidence ≤ 100) ∧
      r2.items.map (fun it => it.confidence) = [100, 0]) ∧
    (normStrengthItem [("strength", Json.str "x")]).category = Json.str "content" ∧
    (normStrengthItem [("strength", Json.str "x")]).importance = Json.str "medium" ∧
    (normWeaknessItem [("weakness", Json.str "x")]).severity = Json.str "minor" := by
  have h := claim6_confidence_clamped strengthsSample weaknessesSample _ _ rfl rfl
  refine ⟨⟨_, rfl, h.1, by decide⟩, ⟨_, rfl, h.2.1, by decide⟩, ?_, ?_, ?_⟩
  · exact h.2.2.1 [("strength", Json.str "x")] rfl
  · exact h.2.2.2.1 [("strength", Json.str "x")] rfl
  · exact h.2.2.2.2.2 [("weakness", Json.str "x")] rfl

/-- Claim C9: `LLMAnalyzer` defines no attribute named `query`, so each of the three
model-backed sub-assessments of the scorer takes its exception-fallback branch for
every input and every hypothetical query behaviour: the model-assessed
content-quality component is always 50, keyword identification always falls back to
the fixed keyword dictionary, the experience coherence component is always 50 (with
the progression left `"unknown"`), and `score_resume` completes without an exception
escaping through these calls. -/
theorem claim9_missing_query_fallback (qResp : Except PyExc String) (now text : String) :
    llmAnalyzerAttrNames.contains "query" = false ∧
    okLlmScore (calculateContentQualityScore qResp text) = some 50 ∧
    okFoundKeywords (calculateKeywordRelevanceScore qResp text none) =
      some (Json.arr ((extractTechKeywords text).map Json.str)) ∧
    okMissingKeywords (calculateKeywordRelevanceScore qResp text none) = some (Json.arr []) ∧
    okCoherence (calculateExperienceScore qResp text) = some 50 ∧
    okProgression (calculateExperienceScore qResp text) = some (Json.str "unknown") ∧
    isOkE (scoreResume qResp qResp qResp now text none) = true := by
  have hq : llmAnalyzerAttrNames.contains "query" = false := by decide
  have hq2 : "query" ∉ llmAnalyzerAttrNames := by decide
  refine ⟨hq, ?_, ?_, ?_, ?_, ?_, ?_⟩
  · simp [calculateContentQualityScore, queryCall, hq, hq2, pyNumVal, okLlmScore]
  · simp [calculateKeywordRelevanceScore, queryCall, hq, hq2, pyLen, okFoundKeywords]
  · simp [calculateKeywordRelevanceScore, queryCall, hq, hq2, pyLen, okMissingKeywords]
  · simp [calculateExperienceScore, queryCall, hq, hq2, pyNumVal, okCoherence]
  · simp [calculateExperienceScore, queryCall, hq, hq2, pyNumVal, okProgression]
  · simp [scoreResume, calculateContentQualityScore, calculateKeywordRelevanceScore,
      calculateExperienceScore, queryCall, hq, hq2, pyNumVal, pyLen, isOkE]

/-- Claim C2: when the transport answers but the parse result is exactly the sentinel
`\x7braw_response: text\x7d`, `analyze_resume` returns a record with an explicit
error field and the raw text, and stores nothing in either cache tier (the cache is
exactly what it was). -/
theorem claim2_sentinel_is_error_not_cached (env : Env) (text kind : String)
    (pf : String → String) (s : String) (st0 : OrchState)
    (hmem : lookupAssoc st0.cache.mem (generateKey text kind) = none)
    (hdisk : lookupAssoc st0.cache.disk (generateKey text kind) = none)
    (htr : env.tr st0.calls = some s) (hne : s ≠ "")
    (hparse : parseResponse s = Json.obj [("raw_response", Json.str s)]) :
    (analyzeResume env text pf kind true st0).1 =
      Json.obj [("error", Json.str "LLM response was not valid JSON; see raw_response"),
                ("raw_response", Json.str s)] ∧
    (analyzeResume env text pf kind true st0).2.cache = st0.cache ∧
    (analyzeResume env text pf kind true st0).2.calls = st0.calls + 1 := by
  simp only [analyzeResume, analyzeResumeCore, cacheGet, hmem, hdisk, callLLM, htr, hparse,
    isSentinelOnly, pyContains, pyGetD, lookupAssoc, invalidJsonError, if_true]
  simp [hne]

/-- Witness for C2: an unparseable transport reply on the empty cache. -/
theorem claim2_sentinel_is_error_not_cached_witness :
    parseResponse "hello" = Json.obj [("raw_response", Json.str "hello")] ∧
    (analyzeResume { tr := fun _ => some "hello", now := "t" } "resume me" id "strengths"
        true st0Empty).1 =
      Json.obj [("error", Json.str "LLM response was not valid JSON; see raw_response"),
                ("raw_response", Json.str "hello")] ∧
    (analyzeResume { tr := fun _ => some "hello", now := "t" } "resume me" id "strengths"
        true st0Empty).2.cache = st0Empty.cache :=
  have h := claim2_sentinel_is_error_not_cached { tr := fun _ => some "hello", now := "t" }
    "resume me" "strengths" id "hello" st0Empty rfl rfl rfl (by decide) rfl
  ⟨rfl, h.1, h.2.1⟩

/-- The sentinel test on an object that is not raw-response-only computes `false`. -/
theorem isSentinelOnly_obj_false (fields : List (String × Json))
    (h : ¬((lookupAssoc fields "raw_response").isSome ∧ fields.length = 1)) :
    isSentinelOnly (Json.obj fields) = .ok false := by
  unfold isSentinelOnly pyContains
  by_cases hrr : (lookupAssoc fields "raw_response").isSome
  · have hlen : fields.length ≠ 1 := fun hl => h ⟨hrr, hl⟩
    simp [hrr, hlen]
  · simp [hrr]

/-- Distinct digests give distinct cache keys (for any shared analysis kind). -/
theorem generateKey_ne_of_digest_ne (t1 t2 k : String)
    (h : Sha256.sha256Hex t1 ≠ Sha256.sha256Hex t2) :
    generateKey t1 k ≠ generateKey t2 k := by
  intro heq
  apply h
  unfold generateKey at heq
  have hd := congrArg String.data heq
  rw [String.data_append, String.data_append, String.data_append, String.data_append,
    List.append_assoc, List.append_assoc] at hd
  exact congrArg String.mk (List.append_cancel_left (List.append_cancel_left hd))

set_option maxHeartbeats 1000000 in
/-- Claim C1: with caching enabled, an initial miss and a transport reply that parses
to a usable record, two consecutive `analyze_resume(T, prompt_fn, K)` calls issue
exactly one underlying inference call — the second is served from the cache and
only carries the flipped `cached` flag; and the cache key is the analysis kind
concatenated (through `"_"`) with the SHA-256 hex digest of the subject text, so
any two subject texts with distinct digests get distinct keys — in particular the
single-character-difference pair `"abc"`/`"abd"` does, by evaluating the hash. -/
theorem claim1_cache_idempotence (env : Env) (text kind : String) (pf : String → String)
    (s : String) (fields : List (String × Json)) (st0 : OrchState)
    (hmem : lookupAssoc st0.cache.mem (generateKey text kind) = none)
    (hdisk : lookupAssoc st0.cache.disk (generateKey text kind) = none)
    (htr : env.tr st0.calls = some s) (hne : s ≠ "")
    (hparse : parseResponse s = Json.obj fields) (hfields : fields ≠ [])
    (hsent : ¬((lookupAssoc fields "raw_response").isSome ∧ fields.length = 1))
    (herr : lookupAssoc fields "error" = none) :
    analyzeResume env text pf kind true st0 =
      (Json.obj (insertAssoc fields "cached" (Json.bool false)),
       { cache := cacheSet st0.cache text kind (Json.obj fields), calls := st0.calls + 1 }) ∧
    analyzeResume env text pf kind true
        { cache := cacheSet st0.cache text kind (Json.obj fields), calls := st0.calls + 1 } =
      (Json.obj (insertAssoc fields "cached" (Json.bool true)),
       { cache := cacheSet st0.cache text kind (Json.obj fields), calls := st0.calls + 1 }) ∧
    generateKey text kind = kind ++ "_" ++ Sha256.sha256Hex text ∧
    (∀ t1 t2 k, Sha256.sha256Hex t1 ≠ Sha256.sha256Hex t2 →
      generateKey t1 k ≠ generateKey t2 k) ∧
    (∀ k, generateKey "abc" k ≠ generateKey "abd" k) := by
  have hempty : fields.isEmpty = false := by
    cases fields with
    | nil => exact absurd rfl hfields
    | cons a l => rfl
  refine ⟨?_, ?_, rfl, generateKey_ne_of_digest_ne, ?_⟩
  · simp only [analyzeResume, analyzeResumeCore, cacheGet, hmem, hdisk, callLLM, if_true]
    rw [htr]
    simp only [if_neg hne, hparse, isSentinelOnly_obj_false fields hsent, pySetItem]
    simp [pyContains, herr]
  · simp only [analyzeResume, analyzeResumeCore, cacheGet, cacheSet,
      lookupAssoc_insertAssoc_self, pyTruthy, pySetItem, hempty, if_true]
    simp
  · intro k
    exact generateKey_ne_of_digest_ne "abc" "abd" k (by decide)

set_option maxHeartbeats 1000000 in
/-- Witness for C1: a fresh cache, a transport answering `\x7b"summary": "good"\x7d`,
subject text `"my resume"`, kind `"strengths"`: one call total across the pair, the
second served from the cache. -/
theorem claim1_cache_idempotence_witness :
    (analyzeResume envGood "my resume" id "strengths" true st0Empty).2.calls = 1 ∧
    (analyzeResume envGood "my resume" id "strengths" true
      (analyzeResume envGood "my resume" id "strengths" true st0Empty).2).1 =
      Json.obj [("summary", Json.str "good"), ("cached", Json.bool true)] ∧
    (analyzeResume envGood "my resume" id "strengths" true
      (analyzeResume envGood "my resume" id "strengths" true st0Empty).2).2.calls = 1 := by
  have h := claim1_cache_idempotence envGood "my resume" "strengths" id
    "\x7b\"summary\": \"good\"\x7d" [("summary", Json.str "good")] st0Empty
    rfl rfl rfl (by decide) rfl (List.cons_ne_nil _ _) (by decide) rfl
  rw [h.1]
  refine ⟨rfl, ?_, ?_⟩
  · rw [h.2.1]
    rfl
  · rw [h.2.1]
    rfl

set_option maxHeartbeats 1000000 in
/-- Claim C10: `comprehensive_analysis(use_cache=False)` skips only the cache read —
the prior cache content is irrelevant and both inference calls are issued — and after
a successful analysis it still writes the result into both tiers under the
`comprehensive` key, so a subsequent `use_cache=True` call is served the bypassed
run's result from the cache without further inference calls. -/
theorem claim10_comprehensive_bypass_still_writes (env : Env) (text s : String)
    (fields : List (String × Json)) (ns : StrengthsNorm) (nw : WeaknessesNorm)
    (st0 : OrchState)
    (htr : env.tr st0.calls = some s) (hne : s ≠ "")
    (hparse : parseResponse s = Json.obj fields)
    (hsent : ¬((lookupAssoc fields "raw_response").isSome ∧ fields.length = 1))
    (herr : lookupAssoc fields "error" = none)
    (hstr : normalizeStrengths ((lookupAssoc fields "strengths").getD (Json.obj [])) = .ok ns)
    (hwk : normalizeWeaknesses ((lookupAssoc fields "weaknesses").getD (Json.obj [])) = .ok nw) :
    ∃ g : List (String × Json),
      comprehensiveAnalysis env text false st0 =
        (Json.obj g,
         { cache := cacheSet st0.cache text "comprehensive" (Json.obj g),
           calls := st0.calls + 2 }) ∧
      lookupAssoc g "cached" = some (Json.bool false) ∧
      lookupAssoc g "error" = none ∧
      lookupAssoc (cacheSet st0.cache text "comprehensive" (Json.obj g)).mem
        (generateKey text "comprehensive") = some (Json.obj g) ∧
      lookupAssoc (cacheSet st0.cache text "comprehensive" (Json.obj g)).disk
        (generateKey text "comprehensive") = some (Json.obj g) ∧
      comprehensiveAnalysis env text true
          { cache := cacheSet st0.cache text "comprehensive" (Json.obj g),
            calls := st0.calls + 2 } =
        (Json.obj (insertAssoc g "cached" (Json.bool true)),
         { cache := cacheSet st0.cache text "comprehensive" (Json.obj g),
           calls := st0.calls + 2 }) := by
  refine ⟨insertAssoc
      [("strengths", ns.toJson), ("weaknesses", nw.toJson),
       ("skills", (lookupAssoc fields "skills").getD skillsDefault),
       ("suggestions", (lookupAssoc fields "suggestions").getD suggestionsDefault),
       ("cached", Json.bool false)] "overall_score"
      ((getOverallScore env text { cache := st0.cache, calls := st0.calls + 1 }).1.elim
        Json.null (fun v => Json.num v)),
    ?_, ?_, ?_, ?_, ?_, ?_⟩
  · simp only [comprehensiveAnalysis, comprehensiveAnalysisCore, callLLM, Bool.false_eq_true,
      if_false]
    rw [htr]
    simp only [if_neg hne, hparse, isSentinelOnly_obj_false fields hsent, pyGetD, hstr, hwk,
      getOverallScore]
    simp [pyContains, herr]
    simp only [callLLM]
    exact ⟨trivial, trivial⟩
  · simp [lookupAssoc_insertAssoc_ne, lookupAssoc]
  · simp [lookupAssoc_insertAssoc_ne, lookupAssoc]
  · simp [cacheSet, lookupAssoc_insertAssoc_self]
  · simp [cacheSet, lookupAssoc_insertAssoc_self]
  · simp only [comprehensiveAnalysis, comprehensiveAnalysisCore, cacheGet, cacheSet,
      lookupAssoc_insertAssoc_self, pyTruthy, pySetItem, if_true]
    simp [insertAssoc]

set_option maxHeartbeats 1000000 in
/-- Witness for C10: both tiers already hold an older `"cv"` entry, the transport
answers a small valid object; the bypassed run recomputes (two calls) and overwrites
both tiers, and a subsequent cached call returns the new result. -/
theorem claim10_comprehensive_bypass_still_writes_witness :
    ∃ g : List (String × Json),
      comprehensiveAnalysis envGood "cv" false stPre =
        (Json.obj g,
         { cache := cacheSet stPre.cache "cv" "comprehensive" (Json.obj g),
           calls := stPre.calls + 2 }) ∧
      lookupAssoc g "cached" = some (Json.bool false) ∧
      lookupAssoc g "error" = none ∧
      lookupAssoc (cacheSet stPre.cache "cv" "comprehensive" (Json.obj g)).mem
        (generateKey "cv" "comprehensive") = some (Json.obj g) ∧
      lookupAssoc (cacheSet stPre.cache "cv" "comprehensive" (Json.obj g)).disk
        (generateKey "cv" "comprehensive") = some (Json.obj g) ∧
      comprehensiveAnalysis envGood "cv" true
          { cache := cacheSet stPre.cache "cv" "comprehensive" (Json.obj g),
            calls := stPre.calls + 2 } =
        (Json.obj (insertAssoc g "cached" (Json.bool true)),
         { cache := cacheSet stPre.cache "cv" "comprehensive" (Json.obj g),
           calls := stPre.calls + 2 }) :=
  claim10_comprehensive_bypass_still_writes envGood "cv" "\x7b\"summary\": \"good\"\x7d"
    [("summary", Json.str "good")] { summary := Json.str "", items := [] }
    { summary := Json.str "", items := [] } stPre rfl (by decide) rfl (by decide) rfl rfl rfl

/-- Counterexample to C5 as stated: in the effective `analyze_skills_gap` (the later
definition, which delegates to `analyze_skills_gap_from_extracted`), stage 1 fails —
the extraction transport is exhausted and `extract_detailed_skills` returns its error
record — yet the pipeline does not abort and surfaces no error: the final gap call
succeeds and the returned report has no top-level `error` field (the stage-1 error
record is merely embedded under `extracted_skills`). -/
theorem claim5_counterexample :
    (extractDetailedSkills envGapA "resume" st0Empty).1 = extractFailRec ∧
    (analyzeSkillsGap envGapA "resume" none "mid" st0Empty).1 = Except.ok gapReportA ∧
    pyContains gapReportA "error" = .ok false ∧
    pyContains extractFailRec "error" = .ok true :=
  ⟨rfl, rfl, rfl, rfl⟩

set_option maxHeartbeats 1000000 in
/-- Claim C5 amended: in the effective pipeline a stage-1 extraction failure does not
abort — the error record is passed through (formatting to an empty skills summary)
and, when the final gap-analysis call succeeds with a JSON object carrying no error
key, a gap report is produced whose `extracted_skills` field holds the stage-1 error
record, whose `target_role` falls back to the fixed default `"Professional"` when no
role is supplied, and which carries no top-level error; the pipeline surfaces an
error record only when the final gap-analysis call itself fails.  (There are no
separate role-inference or industry-lookup stages in this path.) -/
theorem claim5_gap_pipeline_amended (env1 env2 : Env) (text lvl s : String)
    (fields : List (String × Json)) (st0 : OrchState)
    (hmem : lookupAssoc st0.cache.mem (generateKey text "detailed_skills") = none)
    (hdisk : lookupAssoc st0.cache.disk (generateKey text "detailed_skills") = none)
    (h1tr : env1.tr st0.calls = none)
    (h1tr2 : env1.tr (st0.calls + 1) = some s)
    (hparse : parseResponse s = Json.obj fields) (hfields : fields ≠ [])
    (herr : lookupAssoc fields "error" = none)
    (h2tr : env2.tr st0.calls = none)
    (h2tr2 : env2.tr (st0.calls + 1) = none) :
    (extractDetailedSkills env1 text st0).1 = extractFailRec ∧
    (analyzeSkillsGap env1 text none lvl st0).1 =
      Except.ok (Json.obj (insertAssoc (insertAssoc (insertAssoc (insertAssoc fields
        "target_role" (Json.str "Professional"))
        "experience_level" (Json.str lvl))
        "analysis_date" (Json.str env1.now))
        "extracted_skills" extractFailRec)) ∧
    lookupAssoc (insertAssoc (insertAssoc (insertAssoc (insertAssoc fields
        "target_role" (Json.str "Professional"))
        "experience_level" (Json.str lvl))
        "analysis_date" (Json.str env1.now))
        "extracted_skills" extractFailRec) "error" = none ∧
    (analyzeSkillsGap env2 text none lvl st0).1 =
      Except.ok (Json.obj [("error", Json.str "Failed to parse gap analysis response"),
                           ("raw_response", Json.null)]) := by
  have hempty : fields.isEmpty = false := by
    cases fields with
    | nil => exact absurd rfl hfields
    | cons a l => rfl
  have hext1 : extractDetailedSkills env1 text st0 =
      (extractFailRec, { cache := st0.cache, calls := st0.calls + 1 }) := by
    simp only [extractDetailedSkills, extractDetailedSkills.extractDetailedSkillsFresh,
      cacheGet, hmem, hdisk, callLLM, h1tr]
    simp [parseResponseOpt, pyTruthy, jsonIsStr, lookupAssoc, extractFailRec]
  have hext2 : extractDetailedSkills env2 text st0 =
      (extractFailRec, { cache := st0.cache, calls := st0.calls + 1 }) := by
    simp only [extractDetailedSkills, extractDetailedSkills.extractDetailedSkillsFresh,
      cacheGet, hmem, hdisk, callLLM, h2tr]
    simp [parseResponseOpt, pyTruthy, jsonIsStr, lookupAssoc, extractFailRec]
  refine ⟨by rw [hext1], ?_, ?_, ?_⟩
  · simp only [analyzeSkillsGap, hext1, analyzeSkillsGapFromExtracted, formatSkillsCheck,
      extractFailRec, callLLM]
    rw [h1tr2]
    simp only [parseResponseOpt, hparse, pyTruthy, hempty, jsonIsStr, herr]
    simp [herr]
  · simp only [lookupAssoc_insertAssoc_ne _ _ _ _ (by decide : "extracted_skills" ≠ "error"),
      lookupAssoc_insertAssoc_ne _ _ _ _ (by decide : "analysis_date" ≠ "error"),
      lookupAssoc_insertAssoc_ne _ _ _ _ (by decide : "experience_level" ≠ "error"),
      lookupAssoc_insertAssoc_ne _ _ _ _ (by decide : "target_role" ≠ "error"), herr]
  · simp only [analyzeSkillsGap, hext2, analyzeSkillsGapFromExtracted, formatSkillsCheck,
      extractFailRec, callLLM]
    rw [h2tr2]
    simp [parseResponseOpt, pyTruthy, jsonIsStr, lookupAssoc]

set_option maxHeartbeats 1000000 in
/-- Witness for the amended C5 at concrete transports: extraction exhausted in both
scenarios; the gap call answers `\x7b"summary": "ok"\x7d` in the first and is
exhausted in the second. -/
theorem claim5_gap_pipeline_amended_witness :
    (extractDetailedSkills envGapA "resume" st0Empty).1 = extractFailRec ∧
    (analyzeSkillsGap envGapA "resume" none "mid" st0Empty).1 =
      Except.ok (Json.obj (insertAssoc (insertAssoc (insertAssoc (insertAssoc
        [("summary", Json.str "ok")]
        "target_role" (Json.str "Professional"))
        "experience_level" (Json.str "mid"))
        "analysis_date" (Json.str "2026-01-01T00:00:00"))
        "extracted_skills" extractFailRec)) ∧
    (analyzeSkillsGap envGapB "resume" none "mid" st0Empty).1 =
      Except.ok (Json.obj [("error", Json.str "Failed to parse gap analysis response"),
                           ("raw_response", Json.null)]) :=
  have h := claim5_gap_pipeline_amended envGapA envGapB "resume" "mid"
    "\x7b\"summary\": \"ok\"\x7d" [("summary", Json.str "ok")] st0Empty
    rfl rfl rfl rfl rfl (List.cons_ne_nil _ _) rfl rfl rfl
  ⟨h.1, h.2.1, h.2.2.2⟩

end ResumeVerify
